import Mathlib

/-
Verification development for the CHASER advisory chasing/insights backend.

Conventions of the shallow embedding:
* Python floats are modelled as exact rationals (ℚ).  All constants in the
  source (0.15, 0.5, ...) are binary-float literals; the arithmetic verified
  here never hits a case where the float rounding could flip a comparison.
* Timestamps are modelled at whole-day granularity as integers (ℤ), so a
  Python `(a - b).days` becomes the subtraction `a - b`.
* Status and priority values stored on rows are the strings of the str-valued
  enumerations of models.py; the `Priority` objects returned by the agents are
  modelled by an inductive type carrying its string value.
* Python dictionaries built by the agents are modelled by the structure
  `Item`; keys that some agents omit are `Option` fields, and `dict.get`
  with a default becomes `Option.getD`.
* Code paths that raise are modelled in `Except String`; the string is a
  rendering of the exception.
-/

namespace Chaser

/-- Priority enumeration (models.Priority). -/
inductive Priority
  | low
  | medium
  | high
  | urgent
deriving DecidableEq, Repr

/-- The string value of a priority (models.Priority.value). -/
def Priority.val : Priority → String
  | .low => "low"
  | .medium => "medium"
  | .high => "high"
  | .urgent => "urgent"

/-- Communication channel enumeration (models.CommunicationChannel). -/
inductive CommunicationChannel
  | email
  | sms
  | phone
deriving DecidableEq, Repr

/-- The string value of a channel (models.CommunicationChannel.value). -/
def CommunicationChannel.val : CommunicationChannel → String
  | .email => "email"
  | .sms => "sms"
  | .phone => "phone"

/--
The candidate-item dictionary produced by the agents'
`identify_chases_needed`.  Fields that only some of the agents put into the
dictionary are `Option`-valued; reading such a key through `dict.get(k, d)`
is modelled by `Option.getD`.
-/
structure Item where
  id : ℤ := 0
  client_id : ℤ := 0
  case_id : ℤ := 0
  client_name : String := "Unknown"
  client_value_score : ℚ := 1
  priority : String := "medium"
  status : String := "pending"
  chase_count : ℤ := 0
  days_since_last_chase : ℤ := 0
  days_overdue : ℤ := 0
  days_since_request : Option ℤ := none
  document_type : Option String := none
  item_type : Option String := none
  provider_reliability : Option ℚ := none
  provider_name : Option String := none
  client_preferred_contact : Option String := none
  workflow_stage : Option String := none
  workflow_substage : Option String := none
  item_name : Option String := none
deriving DecidableEq, Repr

/--
BaseAgent.calculate_stuck_score (base_agent.py:45-72): the 0-1 stuck score
built from chase count, days since last chase, days overdue, and status.
-/
def calculate_stuck_score (item : Item) : ℚ :=
  let chase_count := item.chase_count
  let days_since_last_chase := item.days_since_last_chase
  let days_overdue := item.days_overdue
  let status := item.status
  let score : ℚ := min ((chase_count : ℚ) * (15/100)) (1/2)
  let score := if days_since_last_chase > 7 then
      score + min (((days_since_last_chase : ℚ) - 7) * (5/100)) (3/10)
    else score
  let score := if days_overdue > 0 then
      score + min ((days_overdue : ℚ) * (1/10)) (4/10)
    else score
  let score := if status = "stuck" then max score (8/10)
    else if status = "overdue" then max score (6/10)
    else score
  min score 1

/--
BaseAgent.calculate_urgency_score (base_agent.py:74-101): 0-1 urgency score
from priority, overdue days, client value and chase count.
-/
def calculate_urgency_score (item : Item) : ℚ :=
  let priority_map : String → Option ℚ := fun p =>
    if p = "urgent" then some 1 else if p = "high" then some (3/4)
    else if p = "medium" then some (1/2) else if p = "low" then some (1/4)
    else none
  let base_score := (priority_map item.priority).getD (1/2)
  let days_overdue := item.days_overdue
  let base_score := if days_overdue > 0 then
      base_score + min ((days_overdue : ℚ) * (5/100)) (1/5)
    else base_score
  let client_value := item.client_value_score
  let base_score := base_score + (client_value - 1) * (1/10)
  let base_score := if item.chase_count > 2 then base_score + (15/100) else base_score
  min base_score 1

/--
The stuck-score formula exactly as the specification states it: the three
capped contributions summed, then raised to 0.8 / 0.6 for the stuck /
overdue statuses, then clamped to at most 1.0.  Used to compare the claimed
formula against `calculate_stuck_score` as translated from the source.
-/
def stuck_score_claim_formula (item : Item) : ℚ :=
  let base : ℚ :=
    min ((item.chase_count : ℚ) * (15/100)) (1/2)
    + (if item.days_since_last_chase > 7 then
        min (((item.days_since_last_chase : ℚ) - 7) * (5/100)) (3/10) else 0)
    + (if item.days_overdue > 0 then
        min ((item.days_overdue : ℚ) * (1/10)) (4/10) else 0)
  let raised := if item.status = "stuck" then max base (8/10)
    else if item.status = "overdue" then max base (6/10)
    else base
  min raised 1

/--
LOAAgent.should_chase (loa_agent.py:101-129): chase whenever overdue; never
within 3 days of the last chase; otherwise by status thresholds.
-/
def loa_should_chase (item : Item) : Bool :=
  let status := item.status
  let days_since_last_chase := item.days_since_last_chase
  let days_overdue := item.days_overdue
  if days_overdue > 0 then true
  else if days_since_last_chase < 3 then false
  else if status = "pending" then true
  else if status = "sent" then
    if days_since_last_chase ≥ 14 then true else false
  else if status = "acknowledged" then
    if days_overdue > 0 ∨ days_since_last_chase ≥ 10 then true else false
  else false

/-! ### Database rows (models.py entities, restricted to the fields the
verified operations read or write; free-text message content is outside the
scope of this model) -/

/-- models.Client (the fields the agents read). -/
structure ClientRow where
  id : ℤ := 0
  name : String := ""
  email : String := ""
  phone : String := ""
  client_value_score : ℚ := 1
  engagement_level : String := "medium"
  preferred_contact : String := "email"
deriving DecidableEq, Repr

/-- models.Case (the fields the agents and workflow engine read/write). -/
structure CaseRow where
  id : ℤ := 0
  client_id : ℤ := 0
  case_type : String := ""
  status : String := ""
  created_at : ℤ := 0
  workflow_stage : String := ""
  workflow_substage : String := ""
deriving DecidableEq, Repr

/-- models.Provider. -/
structure ProviderRow where
  id : ℤ := 0
  name : String := ""
  avg_response_days : ℚ := 0
  reliability_score : ℚ := 7/10
deriving DecidableEq, Repr

/-- models.LOA. -/
structure LoaRow where
  id : ℤ := 0
  case_id : ℤ := 0
  provider_id : ℤ := 0
  status : String := "pending"
  priority : String := "medium"
  sent_to_client_at : Option ℤ := none
  sent_to_provider_at : Option ℤ := none
  expected_response_date : Option ℤ := none
  actual_response_date : Option ℤ := none
  chase_count : ℤ := 0
  last_chased_at : Option ℤ := none
  stuck_score : ℚ := 0
deriving DecidableEq, Repr

/-- models.DocumentRequest. -/
structure DocumentRequestRow where
  id : ℤ := 0
  case_id : ℤ := 0
  document_type : String := ""
  status : String := "pending"
  priority : String := "medium"
  requested_at : Option ℤ := none
  chase_count : ℤ := 0
  last_chased_at : Option ℤ := none
  stuck_score : ℚ := 0
deriving DecidableEq, Repr

/-- models.PostAdviceItem. -/
structure PostAdviceItemRow where
  id : ℤ := 0
  case_id : ℤ := 0
  item_type : String := ""
  status : String := "pending"
  priority : String := "medium"
  requested_at : Option ℤ := none
  chase_count : ℤ := 0
  last_chased_at : Option ℤ := none
  stuck_score : ℚ := 0
deriving DecidableEq, Repr

/-- models.WorkflowItem. -/
structure WorkflowItemRow where
  id : ℤ := 0
  case_id : ℤ := 0
  workflow_stage : String := ""
  workflow_substage : String := ""
  item_type : String := ""
  item_name : String := ""
  description : String := ""
  required_for : String := ""
  status : String := "pending"
  priority : String := "medium"
  requested_at : Option ℤ := none
  due_date : Option ℤ := none
  chase_count : ℤ := 0
  last_chased_at : Option ℤ := none
  stuck_score : ℚ := 0
  provider_id : Option ℤ := none
  provider_name : Option String := none
deriving DecidableEq, Repr

/-- models.Meeting (the fields the workflow engine reads). -/
structure MeetingRow where
  id : ℤ := 0
  client_id : ℤ := 0
  meeting_type : String := ""
  meeting_date : ℤ := 0
deriving DecidableEq, Repr

/-- models.Communication (free-text subject/content are outside the model). -/
structure CommunicationRow where
  client_id : ℤ := 0
  chase_type : String := ""
  chase_id : ℤ := 0
  channel : String := ""
  direction : String := ""
  sent_at : ℤ := 0
deriving DecidableEq, Repr

/-- The relational store seen by a genuine data-access session. -/
structure DB where
  clients : List ClientRow := []
  cases : List CaseRow := []
  providers : List ProviderRow := []
  loas : List LoaRow := []
  doc_requests : List DocumentRequestRow := []
  post_advice_items : List PostAdviceItemRow := []
  workflow_items : List WorkflowItemRow := []
  meetings : List MeetingRow := []
  communications : List CommunicationRow := []
deriving DecidableEq, Repr

/-- `query(Case).filter_by(id=i).first()`. -/
def DB.findCase (db : DB) (i : ℤ) : Option CaseRow :=
  db.cases.find? (fun c => c.id = i)

/-- `query(Client).filter_by(id=i).first()`. -/
def DB.findClient (db : DB) (i : ℤ) : Option ClientRow :=
  db.clients.find? (fun c => c.id = i)

/-- `query(Provider).filter_by(id=i).first()`. -/
def DB.findProvider (db : DB) (i : ℤ) : Option ProviderRow :=
  db.providers.find? (fun p => p.id = i)

/-! ### The four domain agents -/

/--
The per-LOA body of LOAAgent.identify_chases_needed (loa_agent.py:29-76):
the joined case/client/provider rows must resolve, the metrics and the
`needs_chase` flag are computed, and the candidate dictionary is emitted
when the LOA needs a chase or is overdue.
-/
def mkLoaItem (now : ℤ) (db : DB) (loa : LoaRow) : Option Item :=
  if loa.status = "pending" ∨ loa.status = "sent" ∨
      loa.status = "acknowledged" ∨ loa.status = "overdue" then
    match db.findCase loa.case_id, db.findProvider loa.provider_id with
    | some c, some p =>
      match db.findClient c.client_id with
      | some cl =>
        let days_since_last_chase := match loa.last_chased_at with
          | some t => now - t
          | none => 0
        let days_overdue := match loa.expected_response_date with
          | some d => if now > d then now - d else 0
          | none => 0
        let needs_chase :=
          if loa.status = "pending" ∧ loa.sent_to_client_at = none then true
          else if loa.status = "sent" ∧ loa.sent_to_client_at ≠ none then
            match loa.sent_to_client_at with
            | some s => decide (now - s > 14)
            | none => false
          else if loa.status = "acknowledged" ∧ loa.sent_to_provider_at ≠ none then
            if days_overdue > 0 then true
            else decide (days_since_last_chase > 10)
          else false
        if needs_chase = true ∨ days_overdue > 0 then
          some { id := loa.id, client_id := c.client_id, case_id := loa.case_id,
                 client_name := cl.name,
                 client_value_score := cl.client_value_score,
                 provider_name := some p.name,
                 provider_reliability := some p.reliability_score,
                 status := loa.status, priority := loa.priority,
                 chase_count := loa.chase_count,
                 days_since_last_chase := days_since_last_chase,
                 days_overdue := days_overdue }
        else none
      | none => none
    | _, _ => none
  else none

/--
LOAAgent.identify_chases_needed (loa_agent.py:20-78): the active-status
LOAs of the store, one candidate dictionary per qualifying row.
-/
def loa_identify_chases_needed (now : ℤ) (db : DB) : List Item :=
  db.loas.filterMap (mkLoaItem now db)

/-- LOAAgent.calculate_priority (loa_agent.py:80-99). -/
def loa_calculate_priority (item : Item) : Priority :=
  let urgency_score := calculate_urgency_score item
  let provider_reliability := (item.provider_reliability).getD (7/10)
  let urgency_score := if provider_reliability < 1/2 then urgency_score + 1/5
    else urgency_score
  if item.days_overdue > 10 then .urgent
  else if item.days_overdue > 5 then .high
  else if urgency_score > 7/10 then .high
  else if urgency_score > 2/5 then .medium
  else .low

/-- LOAAgent.select_channel, rule-based branch (loa_agent.py:258-277). -/
def loa_select_channel (item : Item) : CommunicationChannel :=
  let chase_count := item.chase_count
  let client_preference := (item.client_preferred_contact).getD "email"
  if item.status = "acknowledged" then
    if item.days_overdue > 10 then .phone else .email
  else if chase_count ≥ 2 then .sms
  else if client_preference = "sms" then .sms
  else .email

/--
The per-request body of ClientDocAgent.identify_chases_needed
(client_doc_agent.py:29-66).
-/
def mkDocItem (now : ℤ) (db : DB) (req : DocumentRequestRow) : Option Item :=
  if req.status = "pending" ∨ req.status = "sent" ∨ req.status = "overdue" then
    match db.findCase req.case_id with
    | some c =>
      match db.findClient c.client_id with
      | some cl =>
        let days_since_last_chase := match req.last_chased_at with
          | some t => now - t
          | none => 0
        let days_since_request := match req.requested_at with
          | some t => now - t
          | none => 0
        let needs_chase :=
          if req.status = "pending" then
            decide (req.last_chased_at = none ∨ days_since_last_chase ≥ 7)
          else if req.status = "sent" then decide (days_since_last_chase ≥ 5)
          else false
        if needs_chase = true ∨ days_since_request > 14 then
          some { id := req.id, client_id := c.client_id, case_id := req.case_id,
                 client_name := cl.name,
                 client_value_score := cl.client_value_score,
                 client_preferred_contact := some cl.preferred_contact,
                 document_type := some req.document_type,
                 status := req.status, priority := req.priority,
                 chase_count := req.chase_count,
                 days_since_last_chase := days_since_last_chase,
                 days_since_request := some days_since_request,
                 days_overdue := max 0 (days_since_request - 14) }
        else none
      | none => none
    | none => none
  else none

/--
ClientDocAgent.identify_chases_needed (client_doc_agent.py:20-68).
-/
def client_doc_identify_chases_needed (now : ℤ) (db : DB) : List Item :=
  db.doc_requests.filterMap (mkDocItem now db)

/-- ClientDocAgent.calculate_priority (client_doc_agent.py:70-89). -/
def client_doc_calculate_priority (item : Item) : Priority :=
  let urgency_score := calculate_urgency_score item
  let days_since_request := (item.days_since_request).getD 0
  let critical_docs := ["passport", "driving_licence", "proof_of_identity"]
  let urgency_score := match item.document_type with
    | some d => if d ∈ critical_docs then urgency_score + 1/5 else urgency_score
    | none => urgency_score
  if days_since_request > 21 then .urgent
  else if days_since_request > 14 then .high
  else if urgency_score > 3/5 then .high
  else if urgency_score > 3/10 then .medium
  else .low

/-- ClientDocAgent.should_chase (client_doc_agent.py:91-111). -/
def client_doc_should_chase (item : Item) : Bool :=
  let days_since_last_chase := item.days_since_last_chase
  let days_since_request := (item.days_since_request).getD 0
  let status := item.status
  if days_since_last_chase < 3 then false
  else if days_since_request > 14 then true
  else if status = "pending" ∧ days_since_last_chase ≥ 7 then true
  else if status = "sent" ∧ days_since_last_chase ≥ 5 then true
  else false

/-- ClientDocAgent.select_channel (client_doc_agent.py:176-187). -/
def client_doc_select_channel (item : Item) : CommunicationChannel :=
  if item.chase_count ≥ 2 then .sms
  else if (item.client_preferred_contact).getD "email" = "sms" then .sms
  else .email

/--
The per-item body of PostAdviceAgent.identify_chases_needed
(post_advice_agent.py:29-63).
-/
def mkPostItem (now : ℤ) (db : DB) (it : PostAdviceItemRow) : Option Item :=
  if it.status = "pending" ∨ it.status = "sent" ∨ it.status = "overdue" then
    match db.findCase it.case_id with
    | some c =>
      match db.findClient c.client_id with
      | some cl =>
        let days_since_last_chase := match it.last_chased_at with
          | some t => now - t
          | none => 0
        let days_since_request := match it.requested_at with
          | some t => now - t
          | none => 0
        let needs_chase :=
          if it.status = "pending" then
            decide (it.last_chased_at = none ∨ days_since_last_chase ≥ 5)
          else if it.status = "sent" then decide (days_since_last_chase ≥ 4)
          else false
        if needs_chase = true ∨ days_since_request > 10 then
          some { id := it.id, client_id := c.client_id, case_id := it.case_id,
                 client_name := cl.name,
                 client_value_score := cl.client_value_score,
                 client_preferred_contact := some cl.preferred_contact,
                 item_type := some it.item_type,
                 status := it.status, priority := it.priority,
                 chase_count := it.chase_count,
                 days_since_last_chase := days_since_last_chase,
                 days_since_request := some days_since_request,
                 days_overdue := max 0 (days_since_request - 10) }
        else none
      | none => none
    | none => none
  else none

/--
PostAdviceAgent.identify_chases_needed (post_advice_agent.py:20-65).
-/
def post_advice_identify_chases_needed (now : ℤ) (db : DB) : List Item :=
  db.post_advice_items.filterMap (mkPostItem now db)

/-- PostAdviceAgent.calculate_priority (post_advice_agent.py:67-86). -/
def post_advice_calculate_priority (item : Item) : Priority :=
  let urgency_score := calculate_urgency_score item
  let days_since_request := (item.days_since_request).getD 0
  let urgency_score := if item.item_type = some "signed_application" then
      urgency_score + 1/4
    else urgency_score
  if days_since_request > 14 then .urgent
  else if days_since_request > 10 then .high
  else if urgency_score > 13/20 then .high
  else if urgency_score > 7/20 then .medium
  else .low

/-- PostAdviceAgent.should_chase (post_advice_agent.py:88-105). -/
def post_advice_should_chase (item : Item) : Bool :=
  let days_since_last_chase := item.days_since_last_chase
  let days_since_request := (item.days_since_request).getD 0
  let status := item.status
  if days_since_last_chase < 2 then false
  else if days_since_request > 10 then true
  else if status = "pending" ∧ days_since_last_chase ≥ 5 then true
  else if status = "sent" ∧ days_since_last_chase ≥ 4 then true
  else false

/-- PostAdviceAgent.select_channel (post_advice_agent.py:161-175). -/
def post_advice_select_channel (item : Item) : CommunicationChannel :=
  if item.item_type = some "signed_application" ∧ item.chase_count ≥ 1 then .sms
  else if item.chase_count ≥ 2 then .sms
  else if (item.client_preferred_contact).getD "email" = "sms" then .sms
  else .email

/--
WorkflowAgent._should_chase_for_stage stage rules (workflow_agent.py:120-164)
for a call that passes a real workflow item (the `identify_chases_needed`
path).  Every branch of the source either returns True or falls through, so
the sequential if-blocks flatten to one conditional chain.
-/
def workflow_stage_chase_rule (stage substage item_type : String)
    (days_since_request days_since_last_chase days_overdue : ℤ) : Bool :=
  if stage = "suitability" ∧ item_type = "loa_required" ∧
      (days_since_request ≥ 3 ∨ days_overdue > 0 ∨ days_since_last_chase ≥ 5) then
    true
  else if stage = "pre_meeting" ∧ substage = "pack_signoff" ∧
      (days_since_request ≥ 2 ∨ days_overdue > 0) then
    true
  else if stage = "pre_meeting" ∧ substage = "client_responses" ∧
      (days_since_request ≥ 5 ∨ days_since_last_chase ≥ 3) then
    true
  else if stage = "meeting" ∧ substage = "fact_find_update" ∧
      (days_since_request ≥ 3 ∨ days_since_last_chase ≥ 2) then
    true
  else if days_overdue > 0 then true
  else if days_since_last_chase ≥ 7 then true
  else false

/--
WorkflowAgent.should_chase without an LLM service (workflow_agent.py:213-237)
calls `_should_chase_for_stage(None, None, ...)`, whose first statement reads
`item.workflow_stage` from the `None` item and therefore raises
AttributeError on every input.
-/
def workflow_agent_should_chase (_item : Item) : Except String Bool :=
  .error "AttributeError: NoneType object has no attribute workflow_stage"

/-- WorkflowAgent stage_priorities table (workflow_agent.py:25-42). -/
def workflow_stage_priorities (stage substage : String) : Option Priority :=
  if stage = "pre_meeting" then
    if substage = "pack_prep" then some .high
    else if substage = "pack_signoff" then some .urgent
    else if substage = "client_responses" then some .high
    else none
  else if stage = "meeting" then
    if substage = "fact_find_update" then some .high
    else if substage = "meeting_notes" then some .medium
    else none
  else if stage = "suitability" then
    if substage = "loa_collection" then some .urgent
    else if substage = "suitability_letter" then some .high
    else none
  else if stage = "advice_implementation" then
    if substage = "implementation_docs" then some .high
    else none
  else none

/-- WorkflowAgent.calculate_priority, rule-based branch (workflow_agent.py:166-211). -/
def workflow_calculate_priority (item : Item) : Priority :=
  let stage := item.workflow_stage
  let substage := item.workflow_substage
  let item_type := item.item_type
  let days_overdue := item.days_overdue
  if stage = some "suitability" ∧ item_type = some "loa_required" then
    if days_overdue > 0 then .urgent else .high
  else if substage = some "pack_signoff" then .urgent
  else if days_overdue > 0 then .high
  else
    match stage, substage with
    | some st, some sub =>
      match workflow_stage_priorities st sub with
      | some p => p
      | none => .medium
    | _, _ => .medium

/-- WorkflowAgent.select_channel, rule-based branch (workflow_agent.py:376-400). -/
def workflow_select_channel (item : Item) : CommunicationChannel :=
  let stage := item.workflow_stage
  let substage := item.workflow_substage
  let days_overdue := item.days_overdue
  let chase_count := item.chase_count
  if (substage = some "pack_signoff" ∨
      (stage = some "suitability" ∧ item.item_type = some "loa_required")) ∧
      chase_count ≥ 1 then .sms
  else if days_overdue > 3 then .sms
  else if chase_count ≥ 2 then .sms
  else if (item.client_preferred_contact).getD "email" = "sms" then .sms
  else .email

/--
WorkflowAgent.identify_chases_needed (workflow_agent.py:44-118): annual
review cases in an active status, clients that resolve, workflow items in
an open status, filtered by the stage chase rule.  (Stored provider ids are
nonzero, so Python truthiness of `item.provider_id` is option-presence.)
-/
def workflow_identify_chases_needed (now : ℤ) (db : DB) : List Item :=
  (db.cases.filter (fun c => c.case_type == "annual_review" &&
      (c.status == "in_progress" || c.status == "pending" ||
       c.status == "awaiting_documents"))).flatMap (fun c =>
    match db.findClient c.client_id with
    | none => []
    | some cl =>
      (db.workflow_items.filter (fun w => w.case_id == c.id &&
          (w.status == "pending" || w.status == "requested" ||
           w.status == "overdue"))).filterMap (fun w =>
        let days_since_request := match w.requested_at with
          | some t => now - t
          | none => 0
        let days_since_last_chase := match w.last_chased_at with
          | some t => now - t
          | none => 0
        let days_overdue := match w.due_date with
          | some d => if now > d then now - d else 0
          | none => 0
        let needs_chase := workflow_stage_chase_rule w.workflow_stage
          w.workflow_substage w.item_type days_since_request
          days_since_last_chase days_overdue
        if needs_chase then
          let provider_name := match w.provider_id with
            | some pid =>
              match db.findProvider pid with
              | some p => some p.name
              | none => w.provider_name
            | none => none
          some { id := w.id, client_id := cl.id, client_name := cl.name,
                 case_id := c.id,
                 workflow_stage := some w.workflow_stage,
                 workflow_substage := some w.workflow_substage,
                 item_type := some w.item_type, item_name := some w.item_name,
                 status := w.status, priority := w.priority,
                 chase_count := w.chase_count,
                 days_since_request := some days_since_request,
                 days_since_last_chase := days_since_last_chase,
                 days_overdue := days_overdue,
                 provider_name := provider_name,
                 client_value_score := cl.client_value_score,
                 client_preferred_contact := some cl.preferred_contact }
        else none))

/-! ### Sequential agent orchestrator (orchestrator.py) -/

/-- The four agents, in the fixed dictionary order of the orchestrator. -/
inductive AgentType
  | loa
  | client_document
  | post_advice
  | workflow_item
deriving DecidableEq, Repr

/-- The chase_type string tag of an agent. -/
def AgentType.val : AgentType → String
  | .loa => "loa"
  | .client_document => "client_document"
  | .post_advice => "post_advice"
  | .workflow_item => "workflow_item"

/-- Dispatch of `identify_chases_needed` to the concrete agent. -/
def agent_identify : AgentType → ℤ → DB → List Item
  | .loa => loa_identify_chases_needed
  | .client_document => client_doc_identify_chases_needed
  | .post_advice => post_advice_identify_chases_needed
  | .workflow_item => workflow_identify_chases_needed

/-- Dispatch of `calculate_priority` (rule-based, no LLM service). -/
def agent_calculate_priority : AgentType → Item → Priority
  | .loa => loa_calculate_priority
  | .client_document => client_doc_calculate_priority
  | .post_advice => post_advice_calculate_priority
  | .workflow_item => workflow_calculate_priority

/-- Dispatch of `should_chase`; the workflow agent raises (see
`workflow_agent_should_chase`). -/
def agent_should_chase : AgentType → Item → Except String Bool
  | .loa => fun it => .ok (loa_should_chase it)
  | .client_document => fun it => .ok (client_doc_should_chase it)
  | .post_advice => fun it => .ok (post_advice_should_chase it)
  | .workflow_item => workflow_agent_should_chase

/-- Dispatch of `select_channel` (rule-based, no LLM service). -/
def agent_select_channel : AgentType → Item → CommunicationChannel
  | .loa => loa_select_channel
  | .client_document => client_doc_select_channel
  | .post_advice => post_advice_select_channel
  | .workflow_item => workflow_select_channel

/-- Update the first list entry satisfying `p` (the semantics of
`filter_by(id=...).first()` followed by in-place mutation and commit). -/
def updateFirst {α : Type} (p : α → Bool) (f : α → α) : List α → List α
  | [] => []
  | x :: xs => if p x then f x :: xs else x :: updateFirst p f xs

/--
AgentOrchestrator._update_item_scores (orchestrator.py:136-154): persists
priority/stuck_score onto the first row with the item id — for the loa,
client_document and post_advice chase types only; the source has no branch
for workflow_item, so nothing is written for it.
-/
def update_item_scores (ct : AgentType) (item_id : ℤ) (p : Priority) (s : ℚ)
    (db : DB) : DB :=
  match ct with
  | .loa =>
    { db with loas := (updateFirst (fun r => r.id == item_id)
        (fun r => { r with priority := p.val, stuck_score := s }) db.loas) }
  | .client_document =>
    { db with doc_requests := (updateFirst (fun r => r.id == item_id)
        (fun r => { r with priority := p.val, stuck_score := s }) db.doc_requests) }
  | .post_advice =>
    { db with post_advice_items := (updateFirst (fun r => r.id == item_id)
        (fun r => { r with priority := p.val, stuck_score := s }) db.post_advice_items) }
  | .workflow_item => db

/-- AgentOrchestrator._create_communication (orchestrator.py:156-171). -/
def create_communication (now : ℤ) (item : Item) (ct : AgentType)
    (ch : CommunicationChannel) (db : DB) : DB :=
  { db with communications := db.communications ++
      [{ client_id := item.client_id, chase_type := ct.val, chase_id := item.id,
         channel := ch.val, direction := "outbound", sent_at := now }] }

/--
AgentOrchestrator._update_chase_metadata (orchestrator.py:173-194):
increments chase_count and stamps last_chased_at on the underlying row, and
for an LOA in pending status transitions it to sent — again with no branch
for workflow_item.
-/
def update_chase_metadata (now : ℤ) (ct : AgentType) (item_id : ℤ) (db : DB) : DB :=
  match ct with
  | .loa =>
    { db with loas := (updateFirst (fun r => r.id == item_id)
        (fun r =>
          let r1 := { r with chase_count := r.chase_count + 1, last_chased_at := some now }
          if r1.status = "pending" then { r1 with status := "sent" } else r1) db.loas) }
  | .client_document =>
    { db with doc_requests := (updateFirst (fun r => r.id == item_id)
        (fun r => { r with chase_count := r.chase_count + 1, last_chased_at := some now })
        db.doc_requests) }
  | .post_advice =>
    { db with post_advice_items := (updateFirst (fun r => r.id == item_id)
        (fun r => { r with chase_count := r.chase_count + 1, last_chased_at := some now })
        db.post_advice_items) }
  | .workflow_item => db

/-- AgentOrchestrator._priority_to_int (orchestrator.py:196-204). -/
def priority_to_int (p : Priority) : ℤ :=
  match p with
  | .urgent => 0
  | .high => 1
  | .medium => 2
  | .low => 3

/-- An entry of the orchestrator's chase queue. -/
structure QEntry where
  agent : AgentType
  item : Item
  priority : Priority
  stuck_score : ℚ
deriving DecidableEq, Repr

/-- The sort order of the chase queue: ascending
`(priority_to_int, -stuck_score)` as in orchestrator.py:79-82. -/
def chase_le (a b : QEntry) : Bool :=
  priority_to_int a.priority < priority_to_int b.priority ∨
    (priority_to_int a.priority = priority_to_int b.priority ∧
      -a.stuck_score ≤ -b.stuck_score)

/-- `Int.fdiv`-based floor of a rational (exact, executable). -/
def ratFloor (q : ℚ) : ℤ := Int.fdiv q.num (q.den : ℤ)

/-- Python `round` to the nearest integer (banker's rounding, half to even;
exact on the rationals of this model). -/
def roundHalfEven (q : ℚ) : ℤ :=
  let f := ratFloor q
  let r := q - (f : ℚ)
  if r < 1/2 then f
  else if 1/2 < r then f + 1
  else if f % 2 = 0 then f else f + 1

/-- Python `round(x, 2)`. -/
def pyRound2 (q : ℚ) : ℚ := (roundHalfEven (q * 100) : ℚ) / 100

/-- One element of the cycle summary's actions_taken list. -/
structure ActionRec where
  type : String
  item_id : ℤ
  client_name : String
  channel : String
  priority : String
  stuck_score : ℚ
deriving DecidableEq, Repr

/-- The summary returned by run_autonomous_cycle. -/
structure CycleSummary where
  timestamp : ℤ
  total_items_identified : ℕ
  actions_taken : List ActionRec
deriving DecidableEq, Repr

/--
Phase 1 inner loop of run_autonomous_cycle (orchestrator.py:52-73): for
each identified item compute priority and stuck score, persist them through
`_update_item_scores`, then consult `should_chase` and queue the item; an
exception from `should_chase` propagates, keeping the session mutations
made so far.
-/
def process_identified (ag : AgentType) (items : List Item) (db : DB)
    (queue : List QEntry) : DB × List QEntry × Option String :=
  match items with
  | [] => (db, queue, none)
  | it :: rest =>
    let p := agent_calculate_priority ag it
    let s := calculate_stuck_score it
    let db1 := update_item_scores ag it.id p s db
    match agent_should_chase ag it with
    | .error e => (db1, queue, some e)
    | .ok b =>
      process_identified ag rest db1 (if b then queue ++ [⟨ag, it, p, s⟩] else queue)

/-- One agent's slice of phase 1: identify against the current session
state, then process every identified item. -/
def run_agent_phase (now : ℤ) (ag : AgentType) (db : DB)
    (queue : List QEntry) : DB × List QEntry × Option String :=
  process_identified ag (agent_identify ag now db) db queue

/--
Phase 3 of run_autonomous_cycle (orchestrator.py:86-122): for each queued
chase in sorted order, select a channel, record a Communication, and update
the chase metadata.  (Message generation only produces the free-text
subject/content of the Communication, which is outside this model.)
-/
def execute_chases (now : ℤ) (entries : List QEntry) (db : DB) :
    DB × List ActionRec :=
  match entries with
  | [] => (db, [])
  | e :: rest =>
    let ch := agent_select_channel e.agent e.item
    let db1 := create_communication now e.item e.agent ch db
    let db2 := update_chase_metadata now e.agent e.item.id db1
    let (db3, acts) := execute_chases now rest db2
    (db3, { type := e.agent.val, item_id := e.item.id,
            client_name := e.item.client_name, channel := ch.val,
            priority := e.priority.val,
            stuck_score := pyRound2 e.stuck_score } :: acts)

/--
AgentOrchestrator.run_autonomous_cycle (orchestrator.py:33-134): agents are
iterated in the fixed order loa, client_document, post_advice,
workflow_item; the queue is sorted by `(priority_to_int, -stuck_score)`;
queued items are executed in order.  The returned pair is the final session
state together with either the summary or the propagated exception.
-/
def run_autonomous_cycle (now : ℤ) (db : DB) : DB × Except String CycleSummary :=
  let r1 := run_agent_phase now .loa db []
  match r1.2.2 with
  | some e => (r1.1, .error e)
  | none =>
    let r2 := run_agent_phase now .client_document r1.1 r1.2.1
    match r2.2.2 with
    | some e => (r2.1, .error e)
    | none =>
      let r3 := run_agent_phase now .post_advice r2.1 r2.2.1
      match r3.2.2 with
      | some e => (r3.1, .error e)
      | none =>
        let r4 := run_agent_phase now .workflow_item r3.1 r3.2.1
        match r4.2.2 with
        | some e => (r4.1, .error e)
        | none =>
          let sorted := r4.2.1.mergeSort chase_le
          let r5 := execute_chases now sorted r4.1
          (r5.1, .ok { timestamp := now,
                       total_items_identified := sorted.length,
                       actions_taken := r5.2 })

/-! ### Workflow Intelligence engine (workflow_intelligence.py)

The engine is written against the query-session capability; the two
interchangeable implementations (a genuine relational session and the no-op
stand-in of mock_db.py) are modelled by a record of the exact query shapes
the engine issues.  The stand-in's `MockQuery` exposes only
`filter/filter_by/join/all/first/count`, so the engine's
`order_by(...)`/`limit(...)` calls raise AttributeError against it. -/

/-- The query shapes WorkflowIntelligence issues against its session. -/
structure WfSession where
  /-- `query(WorkflowItem).filter_by(case_id=c, workflow_stage=s).all()` -/
  wf_items_by_case_stage : ℤ → String → List WorkflowItemRow
  /-- `query(WorkflowItem).filter_by(case_id=c).all()` -/
  wf_items_by_case : ℤ → List WorkflowItemRow
  /-- `query(Meeting).filter_by(client_id=cl).order_by(Meeting.meeting_date.desc()).first()` -/
  recent_meeting : ℤ → Except String (Option MeetingRow)
  /-- `query(Client).filter_by(id=cl).first()` -/
  find_client : ℤ → Option ClientRow
  /-- `query(Provider).limit(3).all()` -/
  providers_limit3 : Except String (List ProviderRow)

/-- The most recent meeting: maximal meeting_date (first of the result of
`order_by(meeting_date.desc())`). -/
def latestMeeting (ms : List MeetingRow) : Option MeetingRow :=
  ms.foldl (fun acc m =>
    match acc with
    | none => some m
    | some b => if m.meeting_date > b.meeting_date then some m else some b) none

/-- A genuine relational session over the store `db`. -/
def realWfSession (db : DB) : WfSession where
  wf_items_by_case_stage := fun cid st =>
    db.workflow_items.filter (fun w => w.case_id == cid && w.workflow_stage == st)
  wf_items_by_case := fun cid =>
    db.workflow_items.filter (fun w => w.case_id == cid)
  recent_meeting := fun cl =>
    .ok (latestMeeting (db.meetings.filter (fun m => m.client_id == cl)))
  find_client := fun cl => db.clients.find? (fun c => c.id == cl)
  providers_limit3 := .ok (db.providers.take 3)

/-- The no-op stand-in session (mock_db.py): every terminal is empty and the
missing `order_by`/`limit` members raise AttributeError. -/
def mockWfSession : WfSession where
  wf_items_by_case_stage := fun _ _ => []
  wf_items_by_case := fun _ => []
  recent_meeting := fun _ =>
    .error "AttributeError: MockQuery object has no attribute order_by"
  find_client := fun _ => none
  providers_limit3 :=
    .error "AttributeError: MockQuery object has no attribute limit"

/--
WorkflowIntelligence.advance_to_meeting_stage (workflow_intelligence.py:69-112):
creates the two meeting-stage items (priority high, due 3 days out) and moves
the case to stage meeting / substage fact_find_update.  The meeting argument
is accepted but unused, as in the source.
-/
def advance_to_meeting_stage (now : ℤ) (c : CaseRow) (_meeting : MeetingRow) :
    CaseRow × List WorkflowItemRow :=
  let items : List WorkflowItemRow :=
    [ { case_id := c.id, workflow_stage := "meeting",
        workflow_substage := "fact_find_update",
        item_type := "fact_find_update", item_name := "Fact Find Update",
        description := "Update fact find with meeting information",
        required_for := "fact_find_update", status := "pending",
        priority := "high", due_date := some (now + 3) },
      { case_id := c.id, workflow_stage := "meeting",
        workflow_substage := "meeting_notes",
        item_type := "meeting_notes", item_name := "Meeting Notes Review",
        description := "Review and confirm meeting notes",
        required_for := "meeting_notes", status := "pending",
        priority := "high", due_date := some (now + 3) } ]
  ({ c with workflow_stage := "meeting", workflow_substage := "fact_find_update" },
   items)

/--
WorkflowIntelligence.advance_to_suitability_stage
(workflow_intelligence.py:114-167): if the client row does not resolve the
method returns the empty item list without touching the case; otherwise it
creates one urgent loa_required item per provider (first three providers,
due 5 days out) plus the suitability-letter item (high, due 10 days out)
and moves the case to suitability / loa_collection.
-/
def advance_to_suitability_stage (now : ℤ) (sess : WfSession) (c : CaseRow) :
    Except String (CaseRow × List WorkflowItemRow) :=
  match sess.find_client c.client_id with
  | none => .ok (c, [])
  | some _ => do
    let providers ← sess.providers_limit3
    let loaItems := providers.map (fun p =>
      ({ case_id := c.id, workflow_stage := "suitability",
         workflow_substage := "loa_collection",
         item_type := "loa_required", item_name := "LOA for " ++ p.name,
         description := "Letter of Authority required from " ++ p.name ++
           " to obtain pension/investment information for suitability report",
         required_for := "suitability_letter", status := "pending",
         priority := "urgent", provider_id := some p.id,
         provider_name := some p.name,
         due_date := some (now + 5) } : WorkflowItemRow))
    let suitability_item : WorkflowItemRow :=
      { case_id := c.id, workflow_stage := "suitability",
        workflow_substage := "suitability_letter",
        item_type := "suitability_letter", item_name := "Suitability Letter",
        description :=
          "Generate suitability letter based on updated fact find and provider information",
        required_for := "suitability_letter", status := "pending",
        priority := "high", due_date := some (now + 10) }
    let c1 := { c with workflow_stage := "suitability", workflow_substage := "loa_collection" }
    .ok (c1, loaItems ++ [suitability_item])

/--
WorkflowIntelligence.check_and_advance_workflow
(workflow_intelligence.py:169-214).  Result: the case row after the call,
the workflow items added by the call, and the returned stage name (absent
when the method returns None).
-/
def check_and_advance_workflow (now : ℤ) (sess : WfSession) (c : CaseRow) :
    Except String (CaseRow × List WorkflowItemRow × Option String) :=
  if c.workflow_stage = "pre_meeting" then
    let pre_meeting_items := sess.wf_items_by_case_stage c.id "pre_meeting"
    if pre_meeting_items.all (fun i => i.status == "received") then do
      let recent ← sess.recent_meeting c.client_id
      match recent with
      | some m =>
        if m.meeting_type = "annual_review" then
          let (c1, added) := advance_to_meeting_stage now c m
          .ok (c1, added, some "meeting")
        else .ok (c, [], none)
      | none => .ok (c, [], none)
    else .ok (c, [], none)
  else if c.workflow_stage = "meeting" then
    let meeting_items := sess.wf_items_by_case_stage c.id "meeting"
    if meeting_items.all (fun i => i.status == "received") then do
      let (c1, added) ← advance_to_suitability_stage now sess c
      .ok (c1, added, some "suitability")
    else .ok (c, [], none)
  else if c.workflow_stage = "suitability" then
    let suitability_items := sess.wf_items_by_case_stage c.id "suitability"
    if suitability_items.all (fun i => i.status == "received") then
      let c1 := { c with workflow_stage := "advice_implementation", workflow_substage := "implementation" }
      .ok (c1, [], some "advice_implementation")
    else .ok (c, [], none)
  else .ok (c, [], none)

/-- A per-stage entry of get_workflow_status's item listing. -/
structure StageItemSummary where
  id : ℤ
  name : String
  type : String
  status : String
  priority : String
deriving DecidableEq, Repr

/-- A per-stage aggregate of get_workflow_status. -/
structure StageAgg where
  total : ℤ := 0
  pending : ℤ := 0
  received : ℤ := 0
  overdue : ℤ := 0
  items : List StageItemSummary := []
deriving DecidableEq, Repr

/-- Fold one workflow item into its stage aggregate
(workflow_intelligence.py:234-249). -/
def bumpStage (now : ℤ) (w : WorkflowItemRow) (agg : StageAgg) : StageAgg :=
  let agg := { agg with total := agg.total + 1 }
  let agg :=
    if w.status = "pending" ∨ w.status = "requested" then
      { agg with pending := agg.pending + 1 }
    else if w.status = "received" then
      { agg with received := agg.received + 1 }
    else agg
  let agg := match w.due_date with
    | some d =>
      if now > d ∧ w.status ≠ "received" then
        { agg with overdue := agg.overdue + 1 }
      else agg
    | none => agg
  { agg with items := agg.items ++
      [{ id := w.id, name := w.item_name, type := w.item_type,
         status := w.status, priority := w.priority }] }

/-- Insert-or-update of the insertion-ordered stage dictionary. -/
def insertStage (now : ℤ) (w : WorkflowItemRow) :
    List (String × StageAgg) → List (String × StageAgg)
  | [] => [(w.workflow_stage, bumpStage now w {})]
  | (k, a) :: rest =>
    if k = w.workflow_stage then (k, bumpStage now w a) :: rest
    else (k, a) :: insertStage now w rest

/-- The stage_items dictionary of get_workflow_status. -/
def buildStageItems (now : ℤ) (ws : List WorkflowItemRow) :
    List (String × StageAgg) :=
  ws.foldl (fun acc w => insertStage now w acc) []

/-- The dictionary returned by get_workflow_status. -/
structure WorkflowStatus where
  current_stage : String
  current_substage : String
  stages : List (String × StageAgg)
  can_advance : Bool
deriving DecidableEq, Repr

/--
WorkflowIntelligence.get_workflow_status (workflow_intelligence.py:216-256).
The `current_stage`/`current_substage` keys are evaluated before the
`can_advance` key, whose expression invokes check_and_advance_workflow and
thereby mutates the case and may create the next stage's items; the result
therefore pairs the status dictionary with the case row after the call and
the items added by the call.
-/
def get_workflow_status (now : ℤ) (sess : WfSession) (c : CaseRow) :
    Except String (WorkflowStatus × CaseRow × List WorkflowItemRow) :=
  let wf := sess.wf_items_by_case c.id
  let stages := buildStageItems now wf
  match check_and_advance_workflow now sess c with
  | .error e => .error e
  | .ok (c1, added, ret) =>
    .ok ({ current_stage := c.workflow_stage,
           current_substage := c.workflow_substage,
           stages := stages, can_advance := ret.isSome }, c1, added)

/-! ### LLM Reasoning Service (llm_service.py) -/

/-- The item_context dictionary read by the priority fallback; absent keys
default to 0 through `dict.get`. -/
structure PriorityContext where
  days_overdue : ℤ := 0
  chase_count : ℤ := 0
deriving DecidableEq, Repr

/-- The dictionary returned by analyze_priority. -/
structure PriorityResult where
  priority : String
  reasoning : String
  urgency_score : ℚ
deriving DecidableEq, Repr

/-- LLMService._fallback_priority (llm_service.py:378-396). -/
def fallback_priority (ctx : PriorityContext) : PriorityResult :=
  let days_overdue := ctx.days_overdue
  let chase_count := ctx.chase_count
  let priority :=
    if days_overdue > 10 ∨ chase_count > 3 then "urgent"
    else if days_overdue > 5 ∨ chase_count > 1 then "high"
    else if days_overdue > 0 then "medium"
    else "low"
  { priority := priority, reasoning := "Rule-based fallback",
    urgency_score := min ((days_overdue : ℚ) * (1/10) + (chase_count : ℚ) * (15/100)) 1 }

/--
LLMService.analyze_priority (llm_service.py:55-94): the chat-completion
chain's outcome is a parameter; a successful parse is returned as-is and
any raised failure is caught and replaced by the rule-based fallback.
-/
def analyze_priority (llm_outcome : Except String PriorityResult)
    (ctx : PriorityContext) : PriorityResult :=
  match llm_outcome with
  | .ok r => r
  | .error _ => fallback_priority ctx

/-! ### Analytics engine (analytics.py) -/

/-- Right-to-left digits of a natural number base 10 (auxiliary for
decimal rendering). -/
def natDigits : ℕ → List Char
  | 0 => []
  | n + 1 =>
    have : (n + 1) / 10 < n + 1 := Nat.div_lt_self (Nat.succ_pos n) (by norm_num)
    natDigits ((n + 1) / 10) ++ [Char.ofNat (48 + (n + 1) % 10)]

/-- Decimal rendering of a natural number. -/
def natToDecimal (n : ℕ) : String :=
  if n = 0 then "0" else String.mk (natDigits n)

/-- Python str() of an integer. -/
def intToDecimal (z : ℤ) : String :=
  if z < 0 then "-" ++ natToDecimal z.natAbs else natToDecimal z.natAbs

/-- Python format specifier `:.2f` on the exact rationals of this model:
round half-to-even at two decimals, then print with two decimals. -/
def fmt2 (q : ℚ) : String :=
  let n := roundHalfEven (q * 100)
  let sign := if n < 0 then "-" else ""
  let m := n.natAbs
  let frac := m % 100
  sign ++ natToDecimal (m / 100) ++ "." ++
    (if frac < 10 then "0" else "") ++ natToDecimal frac

/-- A bottleneck prediction entry (analytics.py:60-70 and 101-112). -/
structure Bottleneck where
  type : String
  id : ℤ
  case_id : ℤ
  client_name : String
  provider_name : Option String := none
  document_type : Option String := none
  risk_score : ℚ
  risk_factors : List String
  current_status : String
  predicted_issue_date : ℤ
deriving DecidableEq, Repr

/-- The risk accumulation of the LOA bottleneck loop body, after the joined
rows have resolved. -/
def loa_bottleneck_core (now days_ahead : ℤ) (loa : LoaRow) (_c : CaseRow)
    (cl : ClientRow) (p : ProviderRow) : Option Bottleneck :=
  let risk_score : ℚ := 0
  let risk_factors : List String := []
  let (risk_score, risk_factors) :=
    if p.reliability_score < 3/5 then
      (risk_score + 3/10, risk_factors ++
        ["Low provider reliability (" ++ fmt2 p.reliability_score ++ ")"])
    else (risk_score, risk_factors)
  let (risk_score, risk_factors) :=
    match loa.expected_response_date with
    | some d =>
      if now > d then
        let days_overdue := now - d
        (risk_score + min ((days_overdue : ℚ) * (1/10)) (4/10),
         risk_factors ++ [intToDecimal days_overdue ++ " days overdue"])
      else (risk_score, risk_factors)
    | none => (risk_score, risk_factors)
  let (risk_score, risk_factors) :=
    if loa.chase_count > 3 then
      (risk_score + 1/5, risk_factors ++
        ["High chase count (" ++ intToDecimal loa.chase_count ++ ")"])
    else (risk_score, risk_factors)
  let risk_score := risk_score + loa.stuck_score * (3/10)
  let (risk_score, risk_factors) :=
    match loa.last_chased_at with
    | some t =>
      let days_since := now - t
      if days_since > 15 then
        (risk_score + 15/100, risk_factors ++
          ["No chase in " ++ intToDecimal days_since ++ " days"])
      else (risk_score, risk_factors)
    | none => (risk_score, risk_factors)
  if risk_score > 1/2 then
    some { type := "loa", id := loa.id, case_id := loa.case_id,
           client_name := cl.name, provider_name := some p.name,
           risk_score := pyRound2 risk_score, risk_factors := risk_factors,
           current_status := loa.status,
           predicted_issue_date := now + days_ahead }
  else none

/-- The LOA half of AnalyticsEngine.predict_bottlenecks
(analytics.py:24-70): risk accumulation over active LOAs.  Note that the
stuck-score factor adds `stuck_score * 0.3` to the risk but appends no
entry to risk_factors. -/
def loa_bottleneck (now days_ahead : ℤ) (db : DB) (loa : LoaRow) :
    Option Bottleneck :=
  if loa.status = "pending" ∨ loa.status = "sent" ∨ loa.status = "acknowledged" then
    match db.findCase loa.case_id, db.findProvider loa.provider_id with
    | some c, some p =>
      match db.findClient c.client_id with
      | some cl => loa_bottleneck_core now days_ahead loa c cl p
      | none => none
    | _, _ => none
  else none

/-- The risk accumulation of the DocumentRequest bottleneck loop body,
after the joined rows have resolved. -/
def doc_bottleneck_core (now days_ahead : ℤ) (req : DocumentRequestRow)
    (_c : CaseRow) (cl : ClientRow) : Option Bottleneck :=
  let days_since_request := match req.requested_at with
    | some t => now - t
    | none => 0
  let risk_score : ℚ := 0
  let risk_factors : List String := []
  let (risk_score, risk_factors) :=
    if days_since_request > 14 then
      (risk_score + 3/10, risk_factors ++
        ["Requested " ++ intToDecimal days_since_request ++ " days ago"])
    else (risk_score, risk_factors)
  let (risk_score, risk_factors) :=
    if cl.engagement_level = "low" then
      (risk_score + 1/5, risk_factors ++ ["Low client engagement"])
    else (risk_score, risk_factors)
  let (risk_score, risk_factors) :=
    if req.chase_count > 2 then
      (risk_score + 1/4, risk_factors ++
        ["Multiple chases (" ++ intToDecimal req.chase_count ++ ")"])
    else (risk_score, risk_factors)
  let risk_score := risk_score + req.stuck_score * (1/4)
  if risk_score > 1/2 then
    some { type := "client_document", id := req.id, case_id := req.case_id,
           client_name := cl.name, document_type := some req.document_type,
           risk_score := pyRound2 risk_score, risk_factors := risk_factors,
           current_status := req.status,
           predicted_issue_date := now + days_ahead }
  else none

/-- The DocumentRequest half of AnalyticsEngine.predict_bottlenecks
(analytics.py:72-112). -/
def doc_bottleneck (now days_ahead : ℤ) (db : DB) (req : DocumentRequestRow) :
    Option Bottleneck :=
  if req.status = "pending" ∨ req.status = "sent" then
    match db.findCase req.case_id with
    | some c =>
      match db.findClient c.client_id with
      | some cl => doc_bottleneck_core now days_ahead req c cl
      | none => none
    | none => none
  else none

/--
AnalyticsEngine.predict_bottlenecks (analytics.py:17-116): LOA and
DocumentRequest candidates merged and then stably sorted descending by
risk score.  `days_ahead` defaults to 7 at the call sites.
-/
def predict_bottlenecks (now : ℤ) (db : DB) (days_ahead : ℤ) : List Bottleneck :=
  let bottlenecks := db.loas.filterMap (loa_bottleneck now days_ahead db) ++
    db.doc_requests.filterMap (doc_bottleneck now days_ahead db)
  bottlenecks.mergeSort (fun a b => b.risk_score ≤ a.risk_score)

/-- The dictionary returned by calculate_case_velocity. -/
structure CaseVelocity where
  case_id : ℤ
  case_age_days : ℤ
  total_items : ℕ
  completed_items : ℕ
  completion_rate : ℚ
  avg_days_per_item : ℚ
  predicted_completion_date : ℤ
  velocity_score : ℚ
deriving DecidableEq, Repr

/-- Python `int()` truncation toward zero on the exact rationals here. -/
def pyInt (q : ℚ) : ℤ := q.num.tdiv (q.den : ℤ)

/-- Python `round(x, 1)`. -/
def pyRound1 (q : ℚ) : ℚ := (roundHalfEven (q * 10) : ℚ) / 10

/--
AnalyticsEngine.calculate_case_velocity (analytics.py:118-158): absent if
the case does not resolve, else the completion/velocity arithmetic of the
source (divisions guarded exactly as in the source).
-/
def calculate_case_velocity (now : ℤ) (db : DB) (case_id : ℤ) :
    Option CaseVelocity :=
  match db.findCase case_id with
  | none => none
  | some c =>
    let case_age_days := now - c.created_at
    let loas := db.loas.filter (fun l => l.case_id == case_id)
    let doc_requests := db.doc_requests.filter (fun d => d.case_id == case_id)
    let post_advice := db.post_advice_items.filter (fun p => p.case_id == case_id)
    let total_items := loas.length + doc_requests.length + post_advice.length
    let completed_items :=
      (loas.filter (fun l => l.status == "received")).length +
      (doc_requests.filter (fun d => d.status == "received")).length +
      (post_advice.filter (fun p => p.status == "received")).length
    let completion_rate : ℚ :=
      if total_items > 0 then (completed_items : ℚ) / (total_items : ℚ) * 100 else 0
    let avg_days_per_item : ℚ :=
      if total_items > 0 then (case_age_days : ℚ) / (total_items : ℚ) else 0
    let remaining_items : ℚ := (total_items : ℚ) - (completed_items : ℚ)
    let predicted_days_remaining : ℚ :=
      if avg_days_per_item > 0 then remaining_items * avg_days_per_item else 30
    let predicted_completion := now + pyInt predicted_days_remaining
    some { case_id := case_id, case_age_days := case_age_days,
           total_items := total_items, completed_items := completed_items,
           completion_rate := pyRound1 completion_rate,
           avg_days_per_item := pyRound1 avg_days_per_item,
           predicted_completion_date := predicted_completion,
           velocity_score := pyRound2 (completion_rate / (max case_age_days 1 : ℤ)) }

/-- One entry of get_provider_performance. -/
structure ProviderPerformance where
  provider_id : ℤ
  provider_name : String
  total_loas : ℕ
  completed : ℕ
  overdue : ℕ
  completion_rate : ℚ
  overdue_rate : ℚ
  avg_response_time_days : ℚ
  reliability_score : ℚ
deriving DecidableEq, Repr

/--
AnalyticsEngine.get_provider_performance (analytics.py:160-200): providers
with no LOAs are skipped; response times use actual/sent date pairs, else
the provider's stated average; sorted descending by overdue rate.
-/
def get_provider_performance (db : DB) : List ProviderPerformance :=
  let performance := db.providers.filterMap (fun provider => do
    let loas := db.loas.filter (fun l => l.provider_id == provider.id)
    let total_loas := loas.length
    guard (total_loas ≠ 0)
    let completed := (loas.filter (fun l => l.status == "received")).length
    let overdue := (loas.filter (fun l => l.status == "overdue")).length
    let completed_loas := loas.filterMap (fun l =>
      match l.actual_response_date, l.sent_to_provider_at with
      | some a, some s => some (a - s)
      | _, _ => none)
    let avg_response_time : ℚ :=
      if completed_loas ≠ [] then
        ((completed_loas.map (fun d => (d : ℚ))).sum) / (completed_loas.length : ℚ)
      else provider.avg_response_days
    pure { provider_id := provider.id, provider_name := provider.name,
           total_loas := total_loas, completed := completed, overdue := overdue,
           completion_rate := if total_loas > 0 then
             pyRound1 ((completed : ℚ) / (total_loas : ℚ) * 100) else 0,
           overdue_rate := if total_loas > 0 then
             pyRound1 ((overdue : ℚ) / (total_loas : ℚ) * 100) else 0,
           avg_response_time_days := pyRound1 avg_response_time,
           reliability_score := provider.reliability_score })
  performance.mergeSort (fun a b => b.overdue_rate ≤ a.overdue_rate)

/-- The data-access state presented by the no-op stand-in session
(mock_db.py): every query terminal answers empty. -/
def mockDB : DB := {}

/-! ### Chasing Engine (chasing_engine.py)

The engine is entirely static-dataset-backed; the dataset timestamps are
built from `datetime.utcnow()`, so the records are functions of `now`.
The claim-relevant invocation `identify_case_blocking_items` calls the
three identify operations with their default (absent) filter arguments, so
the filters are modelled at those defaults. -/

/-- An LOA record of the static dataset (chasing_engine.py:30-107). -/
structure EngineLoaRec where
  loa_id : ℤ
  case_id : ℤ
  client_name : String
  provider_name : String
  provider_id : ℤ
  status : String
  sent_to_provider_at : Option ℤ := none
  sent_to_client_at : Option ℤ := none
  expected_response_date : Option ℤ := none
  days_overdue : Option ℤ := none
  chase_count : ℤ
  last_chased_at : Option ℤ := none
  priority : String
  case_type : String
  client_value_score : ℚ
  is_stuck : Bool
  recommended_action : String
  reason : String
deriving DecidableEq, Repr

/-- A document record of the static dataset (chasing_engine.py:132-197). -/
structure EngineDocRec where
  document_id : ℤ
  case_id : ℤ
  client_name : String
  document_type : String
  requested_at : ℤ
  days_waiting : ℤ
  chase_count : ℤ
  last_chased_at : Option ℤ := none
  priority : String
  is_blocking : Bool
  case_type : String
  client_value_score : ℚ
  recommended_action : String
  reason : String
deriving DecidableEq, Repr

/-- A post-advice record of the static dataset (chasing_engine.py:221-267). -/
structure EnginePostRec where
  item_id : ℤ
  case_id : ℤ
  client_name : String
  item_type : String
  requested_at : ℤ
  days_waiting : ℤ
  chase_count : ℤ
  last_chased_at : Option ℤ := none
  priority : String
  case_type : String
  client_value_score : ℚ
  recommended_action : String
  reason : String
deriving DecidableEq, Repr

/-- Priority rank used by the engine sorts: `{urgent:0,high:1,medium:2,low:3}`
with default 2. -/
def engine_priority_rank (p : String) : ℤ :=
  if p = "urgent" then 0 else if p = "high" then 1
  else if p = "medium" then 2 else if p = "low" then 3 else 2

/--
ChasingEngine.identify_loas_needing_chase at default filters
(chasing_engine.py:20-121): the four-record dataset sorted ascending by
(priority rank, -days_overdue-or-0, -client_value_score-or-0).
-/
def identify_loas_needing_chase (now : ℤ) : List EngineLoaRec :=
  let loas : List EngineLoaRec :=
    [ { loa_id := 1, case_id := 101, client_name := "John Smith",
        provider_name := "Aviva", provider_id := 1,
        status := "sent_to_provider", sent_to_provider_at := some (now - 25),
        expected_response_date := some (now - 5), days_overdue := some 5,
        chase_count := 1, last_chased_at := some (now - 3),
        priority := "high", case_type := "pension_consolidation",
        client_value_score := 85/10, is_stuck := true,
        recommended_action := "phone_call",
        reason := "Overdue by 5 days, high-value client, first chase sent 3 days ago" },
      { loa_id := 2, case_id := 102, client_name := "Sarah Johnson",
        provider_name := "Legal & General", provider_id := 2,
        status := "sent_to_provider", sent_to_provider_at := some (now - 18),
        expected_response_date := some (now + 2), days_overdue := some 0,
        chase_count := 0, last_chased_at := none,
        priority := "medium", case_type := "pension_consolidation",
        client_value_score := 72/10, is_stuck := false,
        recommended_action := "monitor",
        reason := "Within expected timeframe, but approaching due date" },
      { loa_id := 3, case_id := 103, client_name := "Michael Brown",
        provider_name := "Standard Life", provider_id := 3,
        status := "sent_to_provider", sent_to_provider_at := some (now - 35),
        expected_response_date := some (now - 15), days_overdue := some 15,
        chase_count := 2, last_chased_at := some (now - 5),
        priority := "urgent", case_type := "pension_transfer",
        client_value_score := 91/10, is_stuck := true,
        recommended_action := "escalate",
        reason := "Severely overdue, multiple chases sent, high-value client - needs escalation" },
      { loa_id := 4, case_id := 104, client_name := "Emily Davis",
        provider_name := "Prudential", provider_id := 4,
        status := "awaiting_client_signature", sent_to_client_at := some (now - 10),
        expected_response_date := none, days_overdue := none,
        chase_count := 1, last_chased_at := some (now - 3),
        priority := "high", case_type := "pension_consolidation",
        client_value_score := 68/10, is_stuck := false,
        recommended_action := "email",
        reason := "Awaiting client signature, first reminder sent 3 days ago" } ]
  loas.mergeSort (fun a b =>
    (engine_priority_rank a.priority, -(a.days_overdue.getD 0),
      -a.client_value_score) ≤
    (engine_priority_rank b.priority, -(b.days_overdue.getD 0),
      -b.client_value_score))

/--
ChasingEngine.identify_documents_needing_chase at default filters
(chasing_engine.py:123-211): the four-record dataset sorted ascending by
(priority rank, -days_waiting, -client_value_score-or-0).
-/
def identify_documents_needing_chase (now : ℤ) : List EngineDocRec :=
  let documents : List EngineDocRec :=
    [ { document_id := 1, case_id := 201, client_name := "David Wilson",
        document_type := "pension_statement", requested_at := now - 14,
        days_waiting := 14, chase_count := 2, last_chased_at := some (now - 2),
        priority := "high", is_blocking := true,
        case_type := "pension_consolidation", client_value_score := 75/10,
        recommended_action := "phone_call",
        reason := "Blocking case progression, multiple chases sent, approaching critical delay" },
      { document_id := 2, case_id := 202, client_name := "Lisa Anderson",
        document_type := "passport", requested_at := now - 7,
        days_waiting := 7, chase_count := 1, last_chased_at := some (now - 2),
        priority := "medium", is_blocking := true,
        case_type := "investment_advice", client_value_score := 62/10,
        recommended_action := "sms",
        reason := "AML verification required, first reminder sent" },
      { document_id := 3, case_id := 203, client_name := "Robert Taylor",
        document_type := "p60", requested_at := now - 21,
        days_waiting := 21, chase_count := 3, last_chased_at := some (now - 1),
        priority := "urgent", is_blocking := true,
        case_type := "tax_planning", client_value_score := 89/10,
        recommended_action := "phone_call",
        reason := "Severely overdue, multiple chases, high-value client, tax deadline approaching" },
      { document_id := 4, case_id := 204, client_name := "Jennifer Martinez",
        document_type := "investment_valuation", requested_at := now - 5,
        days_waiting := 5, chase_count := 0, last_chased_at := none,
        priority := "low", is_blocking := false,
        case_type := "annual_review", client_value_score := 55/10,
        recommended_action := "email",
        reason := "Recently requested, within acceptable timeframe" } ]
  documents.mergeSort (fun a b =>
    (engine_priority_rank a.priority, -a.days_waiting, -a.client_value_score) ≤
    (engine_priority_rank b.priority, -b.days_waiting, -b.client_value_score))

/--
ChasingEngine.identify_post_advice_items_needing_chase at default filters
(chasing_engine.py:213-279): the three-record dataset sorted ascending by
(priority rank, -days_waiting, -client_value_score-or-0).
-/
def identify_post_advice_items_needing_chase (now : ℤ) : List EnginePostRec :=
  let items : List EnginePostRec :=
    [ { item_id := 1, case_id := 301, client_name := "James Wilson",
        item_type := "signed_application", requested_at := now - 12,
        days_waiting := 12, chase_count := 2, last_chased_at := some (now - 3),
        priority := "high", case_type := "investment_advice",
        client_value_score := 78/10, recommended_action := "phone_call",
        reason := "Application form blocking implementation, multiple chases sent" },
      { item_id := 2, case_id := 302, client_name := "Patricia Brown",
        item_type := "risk_questionnaire", requested_at := now - 8,
        days_waiting := 8, chase_count := 1, last_chased_at := some (now - 2),
        priority := "medium", case_type := "pension_advice",
        client_value_score := 65/10, recommended_action := "email",
        reason := "Risk questionnaire required before proceeding" },
      { item_id := 3, case_id := 303, client_name := "William Taylor",
        item_type := "authority_to_proceed", requested_at := now - 18,
        days_waiting := 18, chase_count := 3, last_chased_at := some (now - 1),
        priority := "urgent", case_type := "pension_transfer",
        client_value_score := 92/10, recommended_action := "escalate",
        reason := "Severely overdue, blocking time-sensitive transfer, high-value client" } ]
  items.mergeSort (fun a b =>
    (engine_priority_rank a.priority, -a.days_waiting, -a.client_value_score) ≤
    (engine_priority_rank b.priority, -b.days_waiting, -b.client_value_score))

/-- Items collected by the blocking-items loops before the routine raises. -/
inductive BlockingItem
  | loa (rec : EngineLoaRec) (item_category blocking_reason : String)
  | doc (rec : EngineDocRec) (item_category blocking_reason : String)
deriving DecidableEq, Repr

/-- Python str() of an int-or-None value read through `dict.get`. -/
def pyStrOptInt : Option ℤ → String
  | some d => intToDecimal d
  | none => "None"

/-- The `case_id and rec['case_id'] != case_id` continue-guard of the
blocking loops (dataset case ids are non-falsy, so Python truthiness of the
optional filter is option-presence). -/
def blockSkipById (case_id : Option ℤ) (rec_case_id : ℤ) : Bool :=
  match case_id with
  | some cid => decide (rec_case_id ≠ cid)
  | none => false

/-- The `case_type and rec['case_type'] != case_type` continue-guard of the
blocking loops. -/
def blockSkipByType (case_type : Option String) (rec_case_type : String) : Bool :=
  match case_type with
  | some ct => decide (rec_case_type ≠ ct)
  | none => false

/--
One iteration of the LOA loop of identify_case_blocking_items
(chasing_engine.py:444-454).  For a record whose is_stuck flag is false and
whose days_overdue is the Python value None, the guard
`loa.get('days_overdue', 0) > 0` compares None with an int and raises
TypeError.
-/
def loaBlockingStep (case_id : Option ℤ) (case_type : Option String)
    (acc : List BlockingItem) (l : EngineLoaRec) :
    Except String (List BlockingItem) :=
  if blockSkipById case_id l.case_id then
    .ok acc
  else if blockSkipByType case_type l.case_type then
    .ok acc
  else if l.is_stuck then
    .ok (acc ++ [.loa l "loa"
      ("LOA overdue by " ++ pyStrOptInt l.days_overdue ++ " days")])
  else
    match l.days_overdue with
    | none => .error "TypeError: unsupported operand comparison between NoneType and int"
    | some d =>
      if d > 0 then
        .ok (acc ++ [.loa l "loa"
          ("LOA overdue by " ++ pyStrOptInt l.days_overdue ++ " days")])
      else .ok acc

/-- One iteration of the document loop of identify_case_blocking_items
(chasing_engine.py:457-468). -/
def docBlockingStep (case_id : Option ℤ) (case_type : Option String)
    (acc : List BlockingItem) (d : EngineDocRec) : List BlockingItem :=
  if blockSkipById case_id d.case_id then
    acc
  else if blockSkipByType case_type d.case_type then
    acc
  else if d.is_blocking then
    acc ++ [.doc d "document"
      ("Document waiting for " ++ intToDecimal d.days_waiting ++ " days")]
  else acc

/--
ChasingEngine.identify_case_blocking_items (chasing_engine.py:432-487).
The LOA loop can raise TypeError (see `loaBlockingStep`); if it survives,
the document loop completes, and the post-advice loop header
`for item in post-advice:` evaluates the subtraction of the undefined names
`post` and `advice`, raising NameError.  The sorted-union return statement
of the source is unreachable.
-/
def identify_case_blocking_items (now : ℤ) (case_id : Option ℤ)
    (case_type : Option String) : Except String (List BlockingItem) := do
  let loas := identify_loas_needing_chase now
  let afterLoas ← loas.foldlM (loaBlockingStep case_id case_type) []
  let documents := identify_documents_needing_chase now
  let afterDocs := documents.foldl (docBlockingStep case_id case_type) afterLoas
  let _post_advice := identify_post_advice_items_needing_chase now
  let _ := afterDocs
  .error "NameError: name post is not defined"

/-- Whether the LOA filter pair retains the dataset record with null
days_overdue (loa_id 4: case 104, pension_consolidation). -/
def retainsNullOverdueLoa (case_id : Option ℤ) (case_type : Option String) : Bool :=
  !(blockSkipById case_id 104 || blockSkipByType case_type "pension_consolidation")

/-- The LOA record of the static dataset whose days_overdue is the Python
value None (loa_id 4, chasing_engine.py:88-106). -/
def engineLoaRec4 (now : ℤ) : EngineLoaRec :=
  { loa_id := 4, case_id := 104, client_name := "Emily Davis",
    provider_name := "Prudential", provider_id := 4,
    status := "awaiting_client_signature", sent_to_client_at := some (now - 10),
    expected_response_date := none, days_overdue := none,
    chase_count := 1, last_chased_at := some (now - 3),
    priority := "high", case_type := "pension_consolidation",
    client_value_score := 68/10, is_stuck := false,
    recommended_action := "email",
    reason := "Awaiting client signature, first reminder sent 3 days ago" }

/-- A concrete annual-review case in the pre_meeting stage. -/
def wfCase : CaseRow :=
  { id := 10, client_id := 1, case_type := "annual_review",
    status := "in_progress", workflow_stage := "pre_meeting",
    workflow_substage := "pack_prep" }

/-- A received pre_meeting workflow item of `wfCase`. -/
def wfItemReceived (i : ℤ) (sub ty nm : String) : WorkflowItemRow :=
  { id := i, case_id := 10, workflow_stage := "pre_meeting",
    workflow_substage := sub, item_type := ty, item_name := nm,
    status := "received", priority := "medium" }

/-- A store with `wfCase`, its three received pre_meeting items, and an
annual_review meeting for its client. -/
def wfDB : DB :=
  { clients := [{ id := 1, name := "Jane Doe" }],
    cases := [wfCase],
    workflow_items :=
      [wfItemReceived 1 "pack_prep" "pre_meeting_doc" "Expenditure Questionnaire",
       wfItemReceived 2 "pack_prep" "questionnaire" "ATR Questionnaire",
       wfItemReceived 3 "pack_signoff" "pack_signoff" "Pack Sign-Off"],
    meetings := [{ id := 1, client_id := 1, meeting_type := "annual_review", meeting_date := 0 }] }

/-- A concrete annual-review case in the meeting stage. -/
def meetingCase : CaseRow :=
  { id := 20, client_id := 2, case_type := "annual_review",
    status := "in_progress", workflow_stage := "meeting",
    workflow_substage := "fact_find_update" }

/-- A concrete annual-review case in the suitability stage. -/
def suitabilityCase : CaseRow :=
  { id := 30, client_id := 3, case_type := "annual_review",
    status := "in_progress", workflow_stage := "suitability",
    workflow_substage := "loa_collection" }

/-- The LOA of the C5 bottleneck scenario: provider reliability 0.5,
expected response 6 days past, chase_count 4, stuck_score 0.5, last chased
16 days ago. -/
def c5loa (now : ℤ) : LoaRow :=
  { id := 7, case_id := 1, provider_id := 1, status := "sent",
    expected_response_date := some (now - 6), chase_count := 4,
    last_chased_at := some (now - 16), stuck_score := 1/2 }

/-- The store of the C5 bottleneck scenario. -/
def c5db (now : ℤ) : DB :=
  { clients := [{ id := 1, name := "John Smith" }],
    cases := [{ id := 1, client_id := 1 }],
    providers := [{ id := 1, name := "Aviva", reliability_score := 1/2 }],
    loas := [c5loa now] }

/-- The bottleneck entry the engine reports for the C5 scenario. -/
def c5entry (now days_ahead : ℤ) : Bottleneck :=
  { type := "loa", id := 7, case_id := 1, client_name := "John Smith",
    provider_name := some "Aviva", risk_score := 6/5,
    risk_factors := ["Low provider reliability (0.50)", "6 days overdue",
      "High chase count (4)", "No chase in 16 days"],
    current_status := "sent", predicted_issue_date := now + days_ahead }

/-! ### Row-transformation combinators

These name the row rewrites the orchestrator helpers perform, so that the
cycle's effect on each table can be stated as one equation. -/

/-- The mutation _update_item_scores performs on the LOA row of a loa item. -/
def scoreSetLoa (it : Item) (r : LoaRow) : LoaRow :=
  { r with priority := (loa_calculate_priority it).val
           stuck_score := calculate_stuck_score it }

/-- The mutation _update_item_scores performs on the DocumentRequest row of
a client_document item. -/
def scoreSetDoc (it : Item) (r : DocumentRequestRow) : DocumentRequestRow :=
  { r with priority := (client_doc_calculate_priority it).val
           stuck_score := calculate_stuck_score it }

/-- The mutation _update_item_scores performs on the PostAdviceItem row of
a post_advice item. -/
def scoreSetPost (it : Item) (r : PostAdviceItemRow) : PostAdviceItemRow :=
  { r with priority := (post_advice_calculate_priority it).val
           stuck_score := calculate_stuck_score it }

/-- The mutation _update_chase_metadata performs on an LOA row: increment
the chase count, stamp the chase time, auto-transition pending to sent. -/
def metaSetLoa (now : ℤ) (r : LoaRow) : LoaRow :=
  let r1 := { r with chase_count := r.chase_count + 1, last_chased_at := some now }
  if r1.status = "pending" then { r1 with status := "sent" } else r1

/-- The mutation _update_chase_metadata performs on a DocumentRequest row. -/
def metaSetDoc (now : ℤ) (r : DocumentRequestRow) : DocumentRequestRow :=
  { r with chase_count := r.chase_count + 1, last_chased_at := some now }

/-- The mutation _update_chase_metadata performs on a PostAdviceItem row. -/
def metaSetPost (now : ℤ) (r : PostAdviceItemRow) : PostAdviceItemRow :=
  { r with chase_count := r.chase_count + 1, last_chased_at := some now }

/-- A sequence of keyed first-match updates, as the orchestrator issues
them against one table. -/
def applyUpdates {α : Type} (k : α → ℤ) (us : List (ℤ × (α → α)))
    (l : List α) : List α :=
  us.foldl (fun acc u => updateFirst (fun x => k x == u.1) u.2 acc) l

/-- One phase-1 score write against the LOA table. -/
def scoreUpdLoa (it : Item) (l : List LoaRow) : List LoaRow :=
  updateFirst (fun r => r.id == it.id) (fun r => scoreSetLoa it r) l

/-- One phase-1 score write against the DocumentRequest table. -/
def scoreUpdDoc (it : Item) (l : List DocumentRequestRow) : List DocumentRequestRow :=
  updateFirst (fun r => r.id == it.id) (fun r => scoreSetDoc it r) l

/-- One phase-1 score write against the PostAdviceItem table. -/
def scoreUpdPost (it : Item) (l : List PostAdviceItemRow) : List PostAdviceItemRow :=
  updateFirst (fun r => r.id == it.id) (fun r => scoreSetPost it r) l

/-- The LOA table after the phase-1 score writes for `items`. -/
def scoredLoas (items : List Item) (l : List LoaRow) : List LoaRow :=
  applyUpdates (fun r => r.id)
    (items.map (fun it => (it.id, fun r => scoreSetLoa it r))) l

/-- The DocumentRequest table after the phase-1 score writes for `items`. -/
def scoredDocs (items : List Item) (l : List DocumentRequestRow) :
    List DocumentRequestRow :=
  applyUpdates (fun r => r.id)
    (items.map (fun it => (it.id, fun r => scoreSetDoc it r))) l

/-- The PostAdviceItem table after the phase-1 score writes for `items`. -/
def scoredPosts (items : List Item) (l : List PostAdviceItemRow) :
    List PostAdviceItemRow :=
  applyUpdates (fun r => r.id)
    (items.map (fun it => (it.id, fun r => scoreSetPost it r))) l

/-- The queue entry the orchestrator builds for a chased loa item. -/
def qEntryLoa (it : Item) : QEntry :=
  ⟨.loa, it, loa_calculate_priority it, calculate_stuck_score it⟩

/-- The queue entry the orchestrator builds for a chased client_document
item. -/
def qEntryDoc (it : Item) : QEntry :=
  ⟨.client_document, it, client_doc_calculate_priority it, calculate_stuck_score it⟩

/-- The queue entry the orchestrator builds for a chased post_advice item. -/
def qEntryPost (it : Item) : QEntry :=
  ⟨.post_advice, it, post_advice_calculate_priority it, calculate_stuck_score it⟩

/-- The loa agent's contribution to the chase queue. -/
def cycleQueueL (now : ℤ) (db : DB) : List QEntry :=
  ((loa_identify_chases_needed now db).filter loa_should_chase).map qEntryLoa

/-- The client_document agent's contribution to the chase queue. -/
def cycleQueueD (now : ℤ) (db : DB) : List QEntry :=
  ((client_doc_identify_chases_needed now db).filter client_doc_should_chase).map qEntryDoc

/-- The post_advice agent's contribution to the chase queue. -/
def cycleQueueP (now : ℤ) (db : DB) : List QEntry :=
  ((post_advice_identify_chases_needed now db).filter post_advice_should_chase).map qEntryPost

/-- The chase queue accumulated by phase 1 of the cycle: the should_chase
survivors of the three functioning agents, in agent order. -/
def cycleQueue (now : ℤ) (db : DB) : List QEntry :=
  cycleQueueL now db ++ cycleQueueD now db ++ cycleQueueP now db

/-- The chase queue after the phase-2 sort. -/
def cycleSorted (now : ℤ) (db : DB) : List QEntry :=
  (cycleQueue now db).mergeSort chase_le

/-- The session state at the end of phase 1: each of the three functioning
agents has written priority/stuck_score onto its own table, row by row in
identification order. -/
def scoresDB (now : ℤ) (db : DB) : DB :=
  { db with
    loas := scoredLoas (loa_identify_chases_needed now db) db.loas
    doc_requests := scoredDocs (client_doc_identify_chases_needed now db) db.doc_requests
    post_advice_items :=
      scoredPosts (post_advice_identify_chases_needed now db) db.post_advice_items }

/-- The session state after the loa slice of phase 1. -/
def scoresDB1 (now : ℤ) (db : DB) : DB :=
  { db with loas := scoredLoas (loa_identify_chases_needed now db) db.loas }

/-- The session state after the loa and client_document slices of phase 1. -/
def scoresDB2 (now : ℤ) (db : DB) : DB :=
  { scoresDB1 now db with
    doc_requests := scoredDocs (client_doc_identify_chases_needed now db) db.doc_requests }

/-- The AttributeError message raised by WorkflowAgent.should_chase. -/
def wfChaseError : String :=
  "AttributeError: NoneType object has no attribute workflow_stage"

/-- The case of the C2 counterexample store: an in-progress annual review
at pack sign-off. -/
def c2wfCase : CaseRow :=
  { id := 70, client_id := 9, case_type := "annual_review",
    status := "in_progress", workflow_stage := "pre_meeting",
    workflow_substage := "pack_signoff" }

/-- The open workflow item of the C2 counterexample store: a pack sign-off
requested 3 days before `now = 100`. -/
def c2wfItem : WorkflowItemRow :=
  { id := 700, case_id := 70,
    workflow_stage := "pre_meeting", workflow_substage := "pack_signoff",
    item_type := "pack_approval", item_name := "Advice pack sign-off",
    status := "pending", requested_at := some 97 }

/-- A store on which the workflow agent identifies one chase candidate: an
in-progress annual review whose pack sign-off was requested 3 days before
`now = 100`. -/
def c2wfdb : DB :=
  { clients := [{ id := 9, name := "Wendy Example" }],
    cases := [c2wfCase],
    workflow_items := [c2wfItem] }

/-! ## Theorems -/

/-- The sequential accumulation of calculate_stuck_score equals the summed
formula of the specification text. -/
theorem calculate_stuck_score_eq_formula (it : Item) :
    calculate_stuck_score it = stuck_score_claim_formula it := by
  simp only [calculate_stuck_score, stuck_score_claim_formula]
  split_ifs <;> ring_nf

/-- The status floor of the stuck score is monotone in its argument. -/
theorem stuck_raise_mono {s : String} {a b : ℚ} (h : a ≤ b) :
    (if s = "stuck" then max a (8/10)
     else if s = "overdue" then max a (6/10) else a) ≤
    (if s = "stuck" then max b (8/10)
     else if s = "overdue" then max b (6/10) else b) := by
  split_ifs
  · exact max_le_max h le_rfl
  · exact max_le_max h le_rfl
  · exact h

/-- The days-since-last-chase contribution is nonnegative. -/
theorem stuck_mid_nonneg (d : ℤ) :
    0 ≤ (if d > 7 then min (((d : ℚ) - 7) * (5/100)) (3/10) else 0) := by
  split
  · have h7 : (7 : ℚ) < (d : ℚ) := by exact_mod_cast ‹d > 7›
    refine le_min ?_ (by norm_num)
    nlinarith
  · exact le_refl 0

/-- The days-since-last-chase contribution is monotone. -/
theorem stuck_mid_mono {d d' : ℤ} (h : d ≤ d') :
    (if d > 7 then min (((d : ℚ) - 7) * (5/100)) (3/10) else 0) ≤
    (if d' > 7 then min (((d' : ℚ) - 7) * (5/100)) (3/10) else 0) := by
  by_cases h7 : d > 7
  · have h7' : d' > 7 := lt_of_lt_of_le h7 h
    simp only [if_pos h7, if_pos h7']
    refine min_le_min ?_ le_rfl
    have hq : (d : ℚ) ≤ (d' : ℚ) := by exact_mod_cast h
    nlinarith
  · simp only [if_neg h7]
    exact stuck_mid_nonneg d'

/--
C1: `BaseAgent.calculate_stuck_score` computes exactly the claimed formula
(capped contributions, status floors of 0.8 / 0.6, clamp at 1.0); it is
non-decreasing in days_since_last_chase with all other fields fixed; and
with chase_count = 0, days_overdue = 0 and a non-stuck/non-overdue status it
is 0 at days_since_last_chase = 7 and 0.3 at days_since_last_chase = 27.
-/
theorem C1_calculate_stuck_score (it : Item) (d d' : ℤ) (hd : d ≤ d')
    (_hc : 0 ≤ it.chase_count) :
    calculate_stuck_score it = stuck_score_claim_formula it ∧
    calculate_stuck_score { it with days_since_last_chase := d } ≤
      calculate_stuck_score { it with days_since_last_chase := d' } ∧
    (it.chase_count = 0 → it.days_overdue = 0 → it.status ≠ "stuck" →
      it.status ≠ "overdue" →
      calculate_stuck_score { it with days_since_last_chase := 7 } = 0 ∧
      calculate_stuck_score { it with days_since_last_chase := 27 } = 3/10) := by
  refine ⟨calculate_stuck_score_eq_formula it, ?_, ?_⟩
  · rw [calculate_stuck_score_eq_formula, calculate_stuck_score_eq_formula]
    simp only [stuck_score_claim_formula]
    refine min_le_min ?_ le_rfl
    have hbase :
        min ((it.chase_count : ℚ) * (15/100)) (1/2)
          + (if d > 7 then min (((d : ℚ) - 7) * (5/100)) (3/10) else 0)
          + (if it.days_overdue > 0 then
              min ((it.days_overdue : ℚ) * (1/10)) (4/10) else 0) ≤
        min ((it.chase_count : ℚ) * (15/100)) (1/2)
          + (if d' > 7 then min (((d' : ℚ) - 7) * (5/100)) (3/10) else 0)
          + (if it.days_overdue > 0 then
              min ((it.days_overdue : ℚ) * (1/10)) (4/10) else 0) := by
      have := @stuck_mid_mono d d' hd
      linarith
    exact stuck_raise_mono hbase
  · intro hc0 hdo hs1 hs2
    constructor <;>
      norm_num [calculate_stuck_score, hc0, hdo, hs1, hs2]

/-- Witness for C1 at a concrete item and day pair. -/
theorem C1_calculate_stuck_score_witness :
    ((5:ℤ) ≤ 9 ∧ (0:ℤ) ≤ ({} : Item).chase_count) ∧
    (calculate_stuck_score ({} : Item) = stuck_score_claim_formula {} ∧
     calculate_stuck_score { ({} : Item) with days_since_last_chase := 5 } ≤
       calculate_stuck_score { ({} : Item) with days_since_last_chase := 9 } ∧
     (({} : Item).chase_count = 0 → ({} : Item).days_overdue = 0 →
      ({} : Item).status ≠ "stuck" → ({} : Item).status ≠ "overdue" →
      calculate_stuck_score { ({} : Item) with days_since_last_chase := 7 } = 0 ∧
      calculate_stuck_score { ({} : Item) with days_since_last_chase := 27 } = 3/10)) :=
  ⟨⟨by decide, by decide⟩,
   C1_calculate_stuck_score {} 5 9 (by decide) (by decide)⟩

/--
C6: `LOAAgent.should_chase` is true for every overdue item; for non-overdue
items it is false below 3 days since last chase, and at or above that gate
it is true for status pending, true for status sent exactly when
days_since_last_chase ≥ 14, true for status acknowledged exactly when
days_since_last_chase ≥ 10, and false for every other status; in
particular a sent item is not chased at 13 days and is chased at 14.
-/
theorem C6_loa_should_chase (it : Item) :
    (it.days_overdue > 0 → loa_should_chase it = true) ∧
    (it.days_overdue ≤ 0 → it.days_since_last_chase < 3 →
      loa_should_chase it = false) ∧
    (it.days_overdue ≤ 0 → 3 ≤ it.days_since_last_chase →
      ((it.status = "pending" → loa_should_chase it = true) ∧
       (it.status = "sent" →
         (loa_should_chase it = true ↔ 14 ≤ it.days_since_last_chase)) ∧
       (it.status = "acknowledged" →
         (loa_should_chase it = true ↔ 10 ≤ it.days_since_last_chase)) ∧
       (it.status ≠ "pending" → it.status ≠ "sent" →
         it.status ≠ "acknowledged" → loa_should_chase it = false))) ∧
    loa_should_chase { status := "sent", days_since_last_chase := 13 } = false ∧
    loa_should_chase { status := "sent", days_since_last_chase := 14 } = true := by
  refine ⟨?_, ?_, ?_, by decide, by decide⟩
  · intro h
    simp [loa_should_chase, h]
  · intro h1 h2
    simp only [loa_should_chase]
    rw [if_neg (by omega), if_pos h2]
  · intro h1 h2
    refine ⟨?_, ?_, ?_, ?_⟩
    · intro hs
      simp only [loa_should_chase]
      rw [if_neg (by omega), if_neg (by omega), hs]
      simp
    · intro hs
      simp only [loa_should_chase]
      rw [if_neg (by omega), if_neg (by omega), hs]
      simp
    · intro hs
      simp only [loa_should_chase]
      rw [if_neg (by omega), if_neg (by omega), hs]
      simp
      omega
    · intro hp hsnt hack
      simp only [loa_should_chase]
      rw [if_neg (by omega), if_neg (by omega), if_neg hp, if_neg hsnt,
        if_neg hack]

/--
C7: when the chat-completion chain of `LLMService.analyze_priority` raises,
the returned value is exactly the rule-based fallback: the urgent / high /
medium / low ladder on days_overdue and chase_count, with
urgency_score = min(days_overdue*0.1 + chase_count*0.15, 1.0); in
particular the context days_overdue=12, chase_count=1 yields priority
"urgent" with urgency_score 1.0.
-/
theorem C7_analyze_priority_fallback (e : String) (ctx : PriorityContext) :
    analyze_priority (.error e) ctx = fallback_priority ctx ∧
    (analyze_priority (.error e) ctx).priority =
      (if ctx.days_overdue > 10 ∨ ctx.chase_count > 3 then "urgent"
       else if ctx.days_overdue > 5 ∨ ctx.chase_count > 1 then "high"
       else if ctx.days_overdue > 0 then "medium" else "low") ∧
    (analyze_priority (.error e) ctx).urgency_score =
      min ((ctx.days_overdue : ℚ) * (1/10) + (ctx.chase_count : ℚ) * (15/100)) 1 ∧
    (analyze_priority (.error e)
      { days_overdue := 12, chase_count := 1 }).priority = "urgent" ∧
    (analyze_priority (.error e)
      { days_overdue := 12, chase_count := 1 }).urgency_score = 1 := by
  refine ⟨rfl, rfl, rfl, by norm_num [analyze_priority, fallback_priority], ?_⟩
  norm_num [analyze_priority, fallback_priority]

/-- A foldlM over steps that all succeed yields a success. -/
theorem foldlM_all_ok {α β : Type} (f : β → α → Except String β) :
    ∀ (l : List α) (acc : β), (∀ a ∈ l, ∀ b, ∃ r, f b a = .ok r) →
    ∃ r, l.foldlM f acc = .ok r := by
  intro l
  induction l with
  | nil => exact fun acc _ => ⟨acc, rfl⟩
  | cons x xs ih =>
    intro acc hall
    obtain ⟨r, hr⟩ := hall x (List.mem_cons_self x xs) acc
    rw [List.foldlM_cons, hr]
    exact ih r (fun a ha b => hall a (List.mem_cons_of_mem x ha) b)

/-- A foldlM whose steps either succeed or fail with the fixed message `m`,
and which contains a step that always fails, fails with `m`. -/
theorem foldlM_first_error {α β : Type} (f : β → α → Except String β) (m : String) :
    ∀ (l : List α) (acc : β),
    (∀ a ∈ l, ∀ b, (∃ r, f b a = .ok r) ∨ f b a = .error m) →
    (∃ a ∈ l, ∀ b, f b a = .error m) →
    l.foldlM f acc = .error m := by
  intro l
  induction l with
  | nil =>
    intro acc _ hex
    obtain ⟨a, ha, _⟩ := hex
    exact absurd ha (List.not_mem_nil a)
  | cons x xs ih =>
    intro acc hall hex
    rcases hall x (List.mem_cons_self x xs) acc with ⟨r, hr⟩ | hr
    · rw [List.foldlM_cons, hr]
      obtain ⟨a, ha, herr⟩ := hex
      rcases List.mem_cons.mp ha with rfl | ha'
      · exact absurd hr (by rw [herr acc]; intro h; cases h)
      · exact ih r (fun a2 ha2 b => hall a2 (List.mem_cons_of_mem x ha2) b)
          ⟨a, ha', herr⟩
    · rw [List.foldlM_cons, hr]
      rfl

/-- A blocking-loop step on a record flagged is_stuck always succeeds. -/
theorem loaBlockingStep_ok_of_stuck (cid : Option ℤ) (ct : Option String)
    (acc : List BlockingItem) (l : EngineLoaRec) (h : l.is_stuck = true) :
    ∃ r, loaBlockingStep cid ct acc l = .ok r := by
  simp only [loaBlockingStep, h]
  split_ifs <;> exact ⟨_, rfl⟩

/-- A blocking-loop step on a record with a non-null days_overdue always
succeeds. -/
theorem loaBlockingStep_ok_of_some (cid : Option ℤ) (ct : Option String)
    (acc : List BlockingItem) (l : EngineLoaRec) (d : ℤ)
    (h : l.days_overdue = some d) :
    ∃ r, loaBlockingStep cid ct acc l = .ok r := by
  simp only [loaBlockingStep, h]
  split_ifs <;> exact ⟨_, rfl⟩

/-- A blocking-loop step skipped by one of the case filters succeeds. -/
theorem loaBlockingStep_ok_of_skip (cid : Option ℤ) (ct : Option String)
    (acc : List BlockingItem) (l : EngineLoaRec)
    (h : blockSkipById cid l.case_id = true ∨
         blockSkipByType ct l.case_type = true) :
    loaBlockingStep cid ct acc l = .ok acc := by
  simp only [loaBlockingStep]
  rcases h with h | h
  · rw [if_pos h]
  · by_cases h1 : blockSkipById cid l.case_id = true
    · rw [if_pos h1]
    · rw [if_neg h1, if_pos h]

/-- A blocking-loop step on an unfiltered, non-stuck record with null
days_overdue raises the None-versus-int TypeError. -/
theorem loaBlockingStep_error_of_none (cid : Option ℤ) (ct : Option String)
    (acc : List BlockingItem) (l : EngineLoaRec)
    (h1 : blockSkipById cid l.case_id = false)
    (h2 : blockSkipByType ct l.case_type = false)
    (h3 : l.is_stuck = false) (h4 : l.days_overdue = none) :
    loaBlockingStep cid ct acc l =
      .error "TypeError: unsupported operand comparison between NoneType and int" := by
  simp only [loaBlockingStep, h1, h2, h3, h4]
  rfl

/--
Every invocation of identify_case_blocking_items raises: the TypeError of
the None-overdue comparison in the LOA loop when the filters retain the
dataset record with null days_overdue, and otherwise the NameError of the
`post-advice` subtraction at the post-advice loop header.
-/
theorem blocking_items_always_raise (now : ℤ) (cid : Option ℤ)
    (ct : Option String) :
    identify_case_blocking_items now cid ct =
      .error (if retainsNullOverdueLoa cid ct then
        "TypeError: unsupported operand comparison between NoneType and int"
      else "NameError: name post is not defined") := by
  have hmem : ∀ a ∈ identify_loas_needing_chase now,
      a.is_stuck = true ∨ a.days_overdue = some 0 ∨ a = engineLoaRec4 now := by
    intro a ha
    simp only [identify_loas_needing_chase, List.mem_mergeSort,
      List.mem_cons, List.not_mem_nil, or_false] at ha
    rcases ha with rfl | rfl | rfl | rfl
    · exact Or.inl rfl
    · exact Or.inr (Or.inl rfl)
    · exact Or.inl rfl
    · exact Or.inr (Or.inr rfl)
  have hall : ∀ a ∈ identify_loas_needing_chase now, ∀ b,
      (∃ r, loaBlockingStep cid ct b a = .ok r) ∨
      loaBlockingStep cid ct b a =
        .error "TypeError: unsupported operand comparison between NoneType and int" := by
    intro a ha b
    rcases hmem a ha with h | h | rfl
    · exact Or.inl (loaBlockingStep_ok_of_stuck cid ct b a h)
    · exact Or.inl (loaBlockingStep_ok_of_some cid ct b a 0 h)
    · by_cases hskip1 : blockSkipById cid (engineLoaRec4 now).case_id = true
      · exact Or.inl ⟨b, loaBlockingStep_ok_of_skip cid ct b _ (Or.inl hskip1)⟩
      · by_cases hskip2 : blockSkipByType ct (engineLoaRec4 now).case_type = true
        · exact Or.inl ⟨b, loaBlockingStep_ok_of_skip cid ct b _ (Or.inr hskip2)⟩
        · exact Or.inr (loaBlockingStep_error_of_none cid ct b _
            (by simpa using hskip1) (by simpa using hskip2) rfl rfl)
  have h4mem : engineLoaRec4 now ∈ identify_loas_needing_chase now := by
    simp only [identify_loas_needing_chase, engineLoaRec4, List.mem_mergeSort,
      List.mem_cons, List.not_mem_nil]
    tauto
  by_cases hret : retainsNullOverdueLoa cid ct = true
  · have hskips : blockSkipById cid (104:ℤ) = false ∧
        blockSkipByType ct "pension_consolidation" = false := by
      have h := hret
      unfold retainsNullOverdueLoa at h
      rw [Bool.not_eq_true', Bool.or_eq_false_iff] at h
      exact h
    have herr := foldlM_first_error (loaBlockingStep cid ct)
      "TypeError: unsupported operand comparison between NoneType and int"
      (identify_loas_needing_chase now) [] hall
      ⟨engineLoaRec4 now, h4mem, fun b => loaBlockingStep_error_of_none cid ct b _
        hskips.1 hskips.2 rfl rfl⟩
    simp only [identify_case_blocking_items, bind, Except.bind, herr, hret, if_true]
  · have hretf : retainsNullOverdueLoa cid ct = false := by
      rwa [Bool.not_eq_true] at hret
    have hor : blockSkipById cid (104:ℤ) = true ∨
        blockSkipByType ct "pension_consolidation" = true := by
      have h := hretf
      unfold retainsNullOverdueLoa at h
      rw [Bool.not_eq_false', Bool.or_eq_true_iff] at h
      exact h
    have hok : ∀ a ∈ identify_loas_needing_chase now, ∀ b,
        ∃ r, loaBlockingStep cid ct b a = .ok r := by
      intro a ha b
      rcases hmem a ha with h | h | rfl
      · exact loaBlockingStep_ok_of_stuck cid ct b a h
      · exact loaBlockingStep_ok_of_some cid ct b a 0 h
      · exact ⟨b, loaBlockingStep_ok_of_skip cid ct b _ hor⟩
    obtain ⟨r, hr⟩ := foldlM_all_ok (loaBlockingStep cid ct)
      (identify_loas_needing_chase now) [] hok
    simp only [identify_case_blocking_items, bind, Except.bind, hr, hretf, if_false]
    rfl


/--
C3 counterexample: the default invocation of identify_case_blocking_items
raises the TypeError of comparing the null days_overdue of LOA record 4
with an int inside the LOA loop — not a name-lookup error at the
post-advice loop.
-/
theorem C3_counterexample :
    identify_case_blocking_items 0 none none =
      .error "TypeError: unsupported operand comparison between NoneType and int" ∧
    identify_case_blocking_items 0 none none ≠
      .error "NameError: name post is not defined" := by
  have h := blocking_items_always_raise 0 none none
  rw [show retainsNullOverdueLoa none none = true from rfl, if_pos rfl] at h
  refine ⟨h, ?_⟩
  rw [h]
  intro hcontra
  have := Except.error.inj hcontra
  simp at this

/--
C3 (amended): every invocation of identify_case_blocking_items raises
instead of returning the union of blocking items: a TypeError from the
`None > 0` comparison in the LOA loop whenever the case_id/case_type
filters retain the LOA record with null days_overdue (in particular for
the unfiltered invocation), and otherwise the NameError from the
`post-advice` subtraction of undefined names once the analysis reaches
post-advice items (as for case_id=101).
-/
theorem C3_blocking_items_raise (now : ℤ) (cid : Option ℤ) (ct : Option String) :
    identify_case_blocking_items now cid ct =
      .error (if retainsNullOverdueLoa cid ct then
        "TypeError: unsupported operand comparison between NoneType and int"
      else "NameError: name post is not defined") ∧
    (∀ l, identify_case_blocking_items now cid ct ≠ .ok l) ∧
    identify_case_blocking_items now (some 101) none =
      .error "NameError: name post is not defined" := by
  refine ⟨blocking_items_always_raise now cid ct, ?_, ?_⟩
  · intro l h
    rw [blocking_items_always_raise now cid ct] at h
    cases h
  · have h := blocking_items_always_raise now (some 101) none
    rwa [show retainsNullOverdueLoa (some 101) none = false from rfl, if_neg
      (by simp)] at h

/-- The most-recent-meeting selection only picks from the given list. -/
theorem latestMeeting_mem (ms : List MeetingRow) (m : MeetingRow)
    (h : latestMeeting ms = some m) : m ∈ ms := by
  have key : ∀ (l : List MeetingRow) (acc : Option MeetingRow) (x : MeetingRow),
      l.foldl (fun acc m =>
        match acc with
        | none => some m
        | some b => if m.meeting_date > b.meeting_date then some m
          else some b) acc = some x → acc = some x ∨ x ∈ l := by
    intro l
    induction l with
    | nil => exact fun acc x h => Or.inl h
    | cons y ys ih =>
      intro acc x h
      rw [List.foldl_cons] at h
      rcases acc with _ | b
      · rcases ih (some y) x h with h1 | h1
        · exact Or.inr (List.mem_cons.mpr (Or.inl (Option.some.inj h1).symm))
        · exact Or.inr (List.mem_cons.mpr (Or.inr h1))
      · by_cases hd : y.meeting_date > b.meeting_date
        · simp only [hd, if_pos] at h
          rcases ih (some y) x h with h1 | h1
          · exact Or.inr (List.mem_cons.mpr (Or.inl (Option.some.inj h1).symm))
          · exact Or.inr (List.mem_cons.mpr (Or.inr h1))
        · simp only [hd, if_neg, if_false] at h
          rcases ih (some b) x h with h1 | h1
          · exact Or.inl h1
          · exact Or.inr (List.mem_cons.mpr (Or.inr h1))
  rcases key ms none m h with h1 | h1
  · cases h1
  · exact h1

/-- With a resolving client and a successful provider query,
advance_to_suitability_stage succeeds and moves the case to
suitability / loa_collection. -/
theorem advance_to_suitability_stage_of_client (now : ℤ) (sess : WfSession)
    (c : CaseRow) (cl : ClientRow) (hfc : sess.find_client c.client_id = some cl)
    (ps : List ProviderRow) (hps : sess.providers_limit3 = .ok ps) :
    ∃ added, advance_to_suitability_stage now sess c =
      .ok ({ c with workflow_stage := "suitability", workflow_substage := "loa_collection" }, added) ∧
      added ≠ [] := by
  simp only [advance_to_suitability_stage, hfc, hps, bind, Except.bind]
  exact ⟨_, rfl, by simp⟩

/--
Behavior of check_and_advance_workflow on a genuine session whose client
row resolves: it never raises; it advances only when every WorkflowItem of
the current stage is received; advancing from pre_meeting additionally
requires an annual_review Meeting of the client and moves to
meeting/fact_find_update; None is returned exactly when nothing changed;
and the items created are the two meeting items, the nonempty suitability
batch, or nothing for the advice_implementation transition.
-/
theorem check_and_advance_spec (now : ℤ) (db : DB) (c : CaseRow)
    (hcl : (realWfSession db).find_client c.client_id ≠ none) :
    ∃ c1 added ret,
      check_and_advance_workflow now (realWfSession db) c = .ok (c1, added, ret) ∧
      (ret ≠ none →
        ((realWfSession db).wf_items_by_case_stage c.id c.workflow_stage).all
          (fun i => i.status == "received") = true) ∧
      (c.workflow_stage = "pre_meeting" → ret ≠ none →
        (∃ m ∈ db.meetings, m.client_id = c.client_id ∧
          m.meeting_type = "annual_review") ∧
        c1.workflow_stage = "meeting" ∧
        c1.workflow_substage = "fact_find_update" ∧ ret = some "meeting") ∧
      (ret = none → c1 = c ∧ added = []) ∧
      (∀ s, ret = some s → c1.workflow_stage = s ∧
        c1.workflow_stage ≠ c.workflow_stage) ∧
      (c.workflow_stage = "pre_meeting" → ret ≠ none → added.length = 2) ∧
      (c.workflow_stage = "meeting" → ret ≠ none → added ≠ []) ∧
      (c.workflow_stage = "suitability" → added = []) := by
  by_cases h1 : c.workflow_stage = "pre_meeting"
  · simp only [check_and_advance_workflow, if_pos h1]
    by_cases hall : ((realWfSession db).wf_items_by_case_stage c.id
        "pre_meeting").all (fun i => i.status == "received") = true
    · rw [if_pos hall]
      have hrm : (realWfSession db).recent_meeting c.client_id =
          .ok (latestMeeting (db.meetings.filter
            (fun m => m.client_id == c.client_id))) := rfl
      cases hlm : latestMeeting (db.meetings.filter
          (fun m => m.client_id == c.client_id)) with
      | none =>
        refine ⟨c, [], none, ?_, ?_, ?_, fun _ => ⟨rfl, rfl⟩, ?_, ?_, ?_, ?_⟩
        · simp only [bind, Except.bind, hrm, hlm]
        · intro h; exact absurd rfl h
        · intro _ h; exact absurd rfl h
        · intro s h; cases h
        · intro _ h; exact absurd rfl h
        · intro _ h; exact absurd rfl h
        · intro _; rfl
      | some m =>
        by_cases hty : m.meeting_type = "annual_review"
        · have hmem := latestMeeting_mem _ _ hlm
          rw [List.mem_filter] at hmem
          refine ⟨(advance_to_meeting_stage now c m).1,
            (advance_to_meeting_stage now c m).2, some "meeting",
            ?_, ?_, ?_, ?_, ?_, ?_, ?_, ?_⟩
          · simp only [bind, Except.bind, hrm, hlm, if_pos hty]
          · intro _; rw [h1]; exact hall
          · intro _ _
            exact ⟨⟨m, hmem.1, by simpa using hmem.2, hty⟩, rfl, rfl, rfl⟩
          · intro h; cases h
          · intro s h
            cases h
            refine ⟨rfl, ?_⟩
            rw [h1]
            simp [advance_to_meeting_stage]
          · intro _ _; rfl
          · intro h _; rw [h1] at h; exact absurd h (by decide)
          · intro h; rw [h1] at h; exact absurd h (by decide)
        · refine ⟨c, [], none, ?_, ?_, ?_, fun _ => ⟨rfl, rfl⟩, ?_, ?_, ?_, ?_⟩
          · simp only [bind, Except.bind, hrm, hlm, if_neg hty]
          · intro h; exact absurd rfl h
          · intro _ h; exact absurd rfl h
          · intro s h; cases h
          · intro _ h; exact absurd rfl h
          · intro _ h; exact absurd rfl h
          · intro _; rfl
    · rw [if_neg hall]
      refine ⟨c, [], none, rfl, ?_, ?_, fun _ => ⟨rfl, rfl⟩, ?_, ?_, ?_, ?_⟩
      · intro h; exact absurd rfl h
      · intro _ h; exact absurd rfl h
      · intro s h; cases h
      · intro _ h; exact absurd rfl h
      · intro _ h; exact absurd rfl h
      · intro _; rfl
  · by_cases h2 : c.workflow_stage = "meeting"
    · simp only [check_and_advance_workflow, if_neg h1, if_pos h2]
      by_cases hall : ((realWfSession db).wf_items_by_case_stage c.id
          "meeting").all (fun i => i.status == "received") = true
      · rw [if_pos hall]
        cases hfc : (realWfSession db).find_client c.client_id with
        | none => exact absurd hfc hcl
        | some cl =>
          obtain ⟨added, hadv, hne⟩ :=
            advance_to_suitability_stage_of_client now (realWfSession db) c cl
              hfc (db.providers.take 3) rfl
          refine ⟨{ c with workflow_stage := "suitability", workflow_substage := "loa_collection" },
            added, some "suitability", ?_, ?_, ?_, ?_, ?_, ?_, ?_, ?_⟩
          · simp only [bind, Except.bind, hadv]
          · intro _; rw [h2]; exact hall
          · intro h; exact absurd h h1
          · intro h; cases h
          · intro s h
            cases h
            refine ⟨rfl, ?_⟩
            rw [h2]
            simp
          · intro h; exact absurd h h1
          · intro _ _; exact hne
          · intro h; rw [h2] at h; exact absurd h (by decide)
      · rw [if_neg hall]
        refine ⟨c, [], none, rfl, ?_, ?_, fun _ => ⟨rfl, rfl⟩, ?_, ?_, ?_, ?_⟩
        · intro h; exact absurd rfl h
        · intro h; exact absurd h h1
        · intro s h; cases h
        · intro h; exact absurd h h1
        · intro _ h; exact absurd rfl h
        · intro _; rfl
    · by_cases h3 : c.workflow_stage = "suitability"
      · simp only [check_and_advance_workflow, if_neg h1, if_neg h2, if_pos h3]
        by_cases hall : ((realWfSession db).wf_items_by_case_stage c.id
            "suitability").all (fun i => i.status == "received") = true
        · rw [if_pos hall]
          refine ⟨_, _, some "advice_implementation", rfl, ?_, ?_, ?_, ?_, ?_, ?_, ?_⟩
          · intro _; rw [h3]; exact hall
          · intro h; exact absurd h h1
          · intro h; cases h
          · intro s h
            cases h
            refine ⟨rfl, ?_⟩
            rw [h3]
            simp
          · intro h; exact absurd h h1
          · intro h; rw [h3] at h; exact absurd h (by decide)
          · intro _; rfl
        · rw [if_neg hall]
          refine ⟨c, [], none, rfl, ?_, ?_, fun _ => ⟨rfl, rfl⟩, ?_, ?_, ?_, ?_⟩
          · intro h; exact absurd rfl h
          · intro h; exact absurd h h1
          · intro s h; cases h
          · intro h; exact absurd h h1
          · intro _ h; exact absurd rfl h
          · intro _; rfl
      · simp only [check_and_advance_workflow, if_neg h1, if_neg h2, if_neg h3]
        refine ⟨c, [], none, rfl, ?_, ?_, fun _ => ⟨rfl, rfl⟩, ?_, ?_, ?_, ?_⟩
        · intro h; exact absurd rfl h
        · intro h; exact absurd h h1
        · intro s h; cases h
        · intro h; exact absurd h h1
        · intro h; exact absurd h h2
        · intro h; exact absurd h h3

/--
C4: on a genuine session whose client row resolves,
check_and_advance_workflow advances only when every WorkflowItem of the
current stage has status received; from pre_meeting it additionally
requires an annual_review Meeting of the case's client, and on that
advance it sets workflow_stage meeting with workflow_substage
fact_find_update; it returns the new stage name on an advance and None
otherwise (the case and item set are then untouched).
-/
theorem C4_check_and_advance_workflow (now : ℤ) (db : DB) (c : CaseRow)
    (hcl : (realWfSession db).find_client c.client_id ≠ none) :
    ∃ c1 added ret,
      check_and_advance_workflow now (realWfSession db) c = .ok (c1, added, ret) ∧
      (ret ≠ none →
        ((realWfSession db).wf_items_by_case_stage c.id c.workflow_stage).all
          (fun i => i.status == "received") = true) ∧
      (c.workflow_stage = "pre_meeting" → ret ≠ none →
        (∃ m ∈ db.meetings, m.client_id = c.client_id ∧
          m.meeting_type = "annual_review") ∧
        c1.workflow_stage = "meeting" ∧
        c1.workflow_substage = "fact_find_update" ∧ ret = some "meeting") ∧
      (ret = none → c1 = c ∧ added = []) ∧
      (∀ s, ret = some s → c1.workflow_stage = s ∧
        c1.workflow_stage ≠ c.workflow_stage) := by
  obtain ⟨c1, added, ret, e1, e2, e3, e4, e5, _, _, _⟩ :=
    check_and_advance_spec now db c hcl
  exact ⟨c1, added, ret, e1, e2, e3, e4, e5⟩

/-- Witness for C4 on the concrete received pre_meeting scenario. -/
theorem C4_check_and_advance_workflow_witness :
    ((realWfSession wfDB).find_client wfCase.client_id ≠ none) ∧
    (∃ c1 added ret,
      check_and_advance_workflow 0 (realWfSession wfDB) wfCase =
        .ok (c1, added, ret) ∧
      (ret ≠ none →
        ((realWfSession wfDB).wf_items_by_case_stage wfCase.id
          wfCase.workflow_stage).all (fun i => i.status == "received") = true) ∧
      (wfCase.workflow_stage = "pre_meeting" → ret ≠ none →
        (∃ m ∈ wfDB.meetings, m.client_id = wfCase.client_id ∧
          m.meeting_type = "annual_review") ∧
        c1.workflow_stage = "meeting" ∧
        c1.workflow_substage = "fact_find_update" ∧ ret = some "meeting") ∧
      (ret = none → c1 = wfCase ∧ added = []) ∧
      (∀ s, ret = some s → c1.workflow_stage = s ∧
        c1.workflow_stage ≠ wfCase.workflow_stage)) :=
  ⟨by decide, C4_check_and_advance_workflow 0 wfDB wfCase (by decide)⟩

/--
C9: get_workflow_status is not read-only: its can_advance field is computed
by invoking check_and_advance_workflow, so the call carries exactly that
invocation's mutation of the case and creation of next-stage items; when
the advancement conditions hold the case leaves its current stage (whose
name the status still reports, having been read before the check), with
two items created from pre_meeting, a nonempty batch from meeting, and
none for the advice_implementation transition.
-/
theorem C9_get_workflow_status_side_effect (now : ℤ) (db : DB) (c : CaseRow)
    (hcl : (realWfSession db).find_client c.client_id ≠ none) :
    ∃ c1 added ret,
      check_and_advance_workflow now (realWfSession db) c = .ok (c1, added, ret) ∧
      get_workflow_status now (realWfSession db) c =
        .ok ({ current_stage := c.workflow_stage,
               current_substage := c.workflow_substage,
               stages := buildStageItems now
                 ((realWfSession db).wf_items_by_case c.id),
               can_advance := ret.isSome }, c1, added) ∧
      (∀ s, ret = some s → c1.workflow_stage = s ∧
        c1.workflow_stage ≠ c.workflow_stage) ∧
      (c.workflow_stage = "pre_meeting" → ret ≠ none → added.length = 2) ∧
      (c.workflow_stage = "meeting" → ret ≠ none → added ≠ []) ∧
      (c.workflow_stage = "suitability" → added = []) := by
  obtain ⟨c1, added, ret, e1, _, _, _, e5, e6, e7, e8⟩ :=
    check_and_advance_spec now db c hcl
  refine ⟨c1, added, ret, e1, ?_, e5, e6, e7, e8⟩
  simp only [get_workflow_status, e1]

/-- Witness for C9 on the concrete received pre_meeting scenario. -/
theorem C9_get_workflow_status_side_effect_witness :
    ((realWfSession wfDB).find_client wfCase.client_id ≠ none) ∧
    (∃ c1 added ret,
      check_and_advance_workflow 0 (realWfSession wfDB) wfCase =
        .ok (c1, added, ret) ∧
      get_workflow_status 0 (realWfSession wfDB) wfCase =
        .ok ({ current_stage := wfCase.workflow_stage,
               current_substage := wfCase.workflow_substage,
               stages := buildStageItems 0
                 ((realWfSession wfDB).wf_items_by_case wfCase.id),
               can_advance := ret.isSome }, c1, added) ∧
      (∀ s, ret = some s → c1.workflow_stage = s ∧
        c1.workflow_stage ≠ wfCase.workflow_stage) ∧
      (wfCase.workflow_stage = "pre_meeting" → ret ≠ none → added.length = 2) ∧
      (wfCase.workflow_stage = "meeting" → ret ≠ none → added ≠ []) ∧
      (wfCase.workflow_stage = "suitability" → added = [])) :=
  ⟨by decide, C9_get_workflow_status_side_effect 0 wfDB wfCase (by decide)⟩

/--
C10 counterexample: against the no-op stand-in session, a case in stage
meeting is reported advanced (the call returns the stage name suitability)
but its workflow_stage is left unchanged: the client lookup answers absent,
so advance_to_suitability_stage returns before touching the case.
-/
theorem C10_counterexample :
    check_and_advance_workflow 0 mockWfSession meetingCase =
      .ok (meetingCase, [], some "suitability") ∧
    meetingCase.workflow_stage = "meeting" ∧
    meetingCase.workflow_stage ≠ "suitability" := by
  refine ⟨rfl, rfl, by decide⟩

/--
C10 (amended): with zero WorkflowItems in the current stage the
all-received condition is vacuously satisfied, so
check_and_advance_workflow reports an advance; against the stand-in
session a case in stage suitability genuinely has its workflow_stage
advanced to advice_implementation, while a case in stage meeting only
returns the name suitability and keeps its workflow_stage, because the
stand-in client lookup answers absent and advance_to_suitability_stage
returns early; on a genuine session whose client resolves, the
meeting-stage case with zero items is advanced to suitability.
-/
theorem C10_empty_stage_vacuous_advance (now : ℤ) (c : CaseRow) (db : DB) :
    (c.workflow_stage = "suitability" →
      check_and_advance_workflow now mockWfSession c =
        .ok ({ c with workflow_stage := "advice_implementation", workflow_substage := "implementation" },
          [], some "advice_implementation")) ∧
    (c.workflow_stage = "meeting" →
      check_and_advance_workflow now mockWfSession c =
        .ok (c, [], some "suitability")) ∧
    (c.workflow_stage = "meeting" →
      (realWfSession db).wf_items_by_case_stage c.id "meeting" = [] →
      (realWfSession db).find_client c.client_id ≠ none →
      ∃ c1 added, check_and_advance_workflow now (realWfSession db) c =
        .ok (c1, added, some "suitability") ∧
        c1.workflow_stage = "suitability") := by
  refine ⟨?_, ?_, ?_⟩
  · intro h
    have hn1 : ¬ c.workflow_stage = "pre_meeting" := by rw [h]; decide
    have hn2 : ¬ c.workflow_stage = "meeting" := by rw [h]; decide
    simp only [check_and_advance_workflow, if_neg hn1, if_neg hn2, if_pos h,
      mockWfSession]
    simp
  · intro h
    have hn1 : ¬ c.workflow_stage = "pre_meeting" := by rw [h]; decide
    simp only [check_and_advance_workflow, if_neg hn1, if_pos h,
      mockWfSession, advance_to_suitability_stage]
    rfl
  · intro h hitems hcl
    have hn1 : ¬ c.workflow_stage = "pre_meeting" := by rw [h]; decide
    cases hfc : (realWfSession db).find_client c.client_id with
    | none => exact absurd hfc hcl
    | some cl =>
      obtain ⟨added, hadv, _⟩ :=
        advance_to_suitability_stage_of_client now (realWfSession db) c cl
          hfc (db.providers.take 3) rfl
      refine ⟨{ c with workflow_stage := "suitability", workflow_substage := "loa_collection" },
        added, ?_, rfl⟩
      simp only [check_and_advance_workflow, if_neg hn1, if_pos h, hitems,
        List.all_nil, bind, Except.bind, hadv]
      simp

/-- Witness for C10 at concrete meeting- and suitability-stage cases. -/
theorem C10_empty_stage_vacuous_advance_witness :
    (check_and_advance_workflow 0 mockWfSession suitabilityCase =
      .ok ({ suitabilityCase with workflow_stage := "advice_implementation", workflow_substage := "implementation" },
        [], some "advice_implementation")) ∧
    (check_and_advance_workflow 0 mockWfSession meetingCase =
      .ok (meetingCase, [], some "suitability")) :=
  ⟨(C10_empty_stage_vacuous_advance 0 suitabilityCase {}).1 rfl,
   (C10_empty_stage_vacuous_advance 0 meetingCase {}).2.1 rfl⟩

/-- Evaluation of predict_bottlenecks on the C5 scenario: one entry of
risk score 1.2, carrying exactly four risk-factor strings (the stuck-score
contribution of 0.15 appends no string). -/
theorem c5_bottleneck_eval (now days_ahead : ℤ) :
    predict_bottlenecks now (c5db now) days_ahead = [c5entry now days_ahead] := by
  have h1 : loa_bottleneck now days_ahead (c5db now) (c5loa now) =
      some (c5entry now days_ahead) := by
    norm_num [loa_bottleneck, loa_bottleneck_core, c5db, c5loa, c5entry,
      DB.findCase, DB.findClient, DB.findProvider, List.find?, pyRound2,
      roundHalfEven, ratFloor, fmt2, intToDecimal, natToDecimal, natDigits]
    decide
  simp only [predict_bottlenecks]
  rw [show (c5db now).loas = [c5loa now] from rfl,
    show (c5db now).doc_requests = [] from rfl]
  rw [List.filterMap_cons, h1]
  simp [List.mergeSort_singleton]

/--
C5 counterexample: for the claimed scenario (reliability 0.5, 6 days
overdue, chase_count 4, stuck_score 0.5, 16 days since last chase) the
reported bottleneck carries four contributing risk-factor strings, not
five: the stuck-score factor adds 0.15 to the score without a string.
-/
theorem C5_counterexample :
    (predict_bottlenecks 0 (c5db 0) 7).map (fun b => b.risk_factors.length) = [4] ∧
    (predict_bottlenecks 0 (c5db 0) 7).map (fun b => b.risk_factors.length) ≠ [5] := by
  rw [c5_bottleneck_eval 0 7]
  constructor
  · rfl
  · intro h
    simp [c5entry] at h

/--
C5 (amended): the scenario LOA accumulates risk
0.3 + 0.4 + 0.2 + 0.15 + 0.15 = 1.2 > 0.5 and is reported with its rounded
risk score, a predicted issue date of now + days_ahead, and the four
contributing risk-factor strings (low reliability, days overdue, chase
count, days since last chase); the stuck-score factor contributes 0.15 to
the score but no string, so the factor list has length 4.
-/
theorem C5_predict_bottlenecks_scenario (now days_ahead : ℤ) :
    predict_bottlenecks now (c5db now) days_ahead = [c5entry now days_ahead] ∧
    (c5entry now days_ahead).risk_score = 6/5 ∧
    ((6 : ℚ)/5) > 1/2 ∧
    (c5entry now days_ahead).risk_factors =
      ["Low provider reliability (0.50)", "6 days overdue",
       "High chase count (4)", "No chase in 16 days"] ∧
    (c5entry now days_ahead).risk_factors.length = 4 ∧
    (c5entry now days_ahead).predicted_issue_date = now + days_ahead := by
  refine ⟨c5_bottleneck_eval now days_ahead, rfl, by norm_num, rfl, rfl, rfl⟩

/--
C8: every Analytics Engine operation, run against the no-op stand-in
data-access session (every query terminal empty), returns without raising
and reports an empty or absent result: predict_bottlenecks answers the
empty list for any days_ahead, get_provider_performance the empty list,
and calculate_case_velocity absent (None) for any case id.
-/
theorem C8_analytics_empty_on_mock (now days_ahead case_id : ℤ) :
    predict_bottlenecks now mockDB days_ahead = [] ∧
    calculate_case_velocity now mockDB case_id = none ∧
    get_provider_performance mockDB = [] := by
  refine ⟨?_, rfl, ?_⟩
  · simp [predict_bottlenecks, mockDB]
  · simp [get_provider_performance, mockDB]

/-- On a table with pairwise distinct keys, a first-match update by key is
a pointwise map. -/
theorem updateFirst_eq_map {α : Type} (k : α → ℤ) (i : ℤ) (g : α → α) :
    ∀ (l : List α), l.Pairwise (fun a b => k a ≠ k b) →
    updateFirst (fun x => k x == i) g l =
      l.map (fun r => if k r == i then g r else r)
  | [], _ => rfl
  | x :: xs, hdist => by
    rw [List.pairwise_cons] at hdist
    simp only [updateFirst, List.map_cons]
    by_cases hx : (k x == i) = true
    · rw [if_pos hx, if_pos hx]
      have hi : k x = i := by simpa using hx
      have hmap : xs.map (fun r => if k r == i then g r else r) = xs := by
        have : ∀ y ∈ xs, (if (k y == i) = true then g y else y) = y := by
          intro y hy
          have hne : ¬ k y = i := fun hky => hdist.1 y hy (by rw [hi, hky])
          rw [if_neg (by simp [hne])]
        calc xs.map (fun r => if k r == i then g r else r)
            = xs.map id := List.map_congr_left this
          _ = xs := List.map_id xs
      rw [hmap]
    · rw [if_neg hx, if_neg hx, updateFirst_eq_map k i g xs hdist.2]

/-- On a table with pairwise distinct keys, a sequence of keyed first-match
updates acts pointwise: each row receives, in order, exactly the updates
carrying its key. -/
theorem applyUpdates_map {α : Type} (k : α → ℤ) :
    ∀ (us : List (ℤ × (α → α))), (∀ u ∈ us, ∀ x, k (u.2 x) = k x) →
    ∀ (l : List α), l.Pairwise (fun a b => k a ≠ k b) →
    applyUpdates k us l =
      l.map (fun r => ((us.filter (fun v => v.1 == k r)).map Prod.snd).foldl
        (fun x g => g x) r)
  | [], _, l, _ => by simp [applyUpdates]
  | u :: us, hkeep, l, hdist => by
    have hu := hkeep u (List.mem_cons_self u us)
    have step := updateFirst_eq_map k u.1 u.2 l hdist
    have hun : applyUpdates k (u :: us) l =
        applyUpdates k us (updateFirst (fun x => k x == u.1) u.2 l) := rfl
    rw [hun, step]
    have hdist2 : (l.map (fun r => if k r == u.1 then u.2 r else r)).Pairwise
        (fun a b => k a ≠ k b) := by
      rw [List.pairwise_map]
      refine hdist.imp ?_
      intro a b hab
      have hka : k (if (k a == u.1) = true then u.2 a else a) = k a := by
        split
        · exact hu a
        · rfl
      have hkb : k (if (k b == u.1) = true then u.2 b else b) = k b := by
        split
        · exact hu b
        · rfl
      rw [hka, hkb]
      exact hab
    rw [applyUpdates_map k us (fun v hv x => hkeep v (List.mem_cons_of_mem u hv) x)
      _ hdist2, List.map_map]
    refine List.map_congr_left ?_
    intro r _
    have hk2 : k (if (k r == u.1) = true then u.2 r else r) = k r := by
      split
      · exact hu r
      · rfl
    simp only [Function.comp, hk2]
    by_cases hm : (u.1 == k r) = true
    · have hm' : (k r == u.1) = true := by
        have : u.1 = k r := by simpa using hm
        simp [this]
      rw [if_pos hm']
      simp [List.filter_cons, hm]
    · have hne : ¬ u.1 = k r := by simpa using hm
      have h1 : ¬ k r = u.1 := fun h => hne h.symm
      have h2 : (u.1 == k r) = false := by simp [hne]
      rw [if_neg (by simp [h1])]
      simp [List.filter_cons, h2]

/-- A keyed filterMap of a pairwise-distinct-key table is itself
pairwise-distinct-key. -/
theorem pairwise_key_filterMap {α β : Type} (f : α → Option β) (ka : α → ℤ)
    (kb : β → ℤ) (hf : ∀ a b, f a = some b → kb b = ka a) :
    ∀ (l : List α), l.Pairwise (fun a b => ka a ≠ ka b) →
    (l.filterMap f).Pairwise (fun a b => kb a ≠ kb b)
  | [], _ => by simp
  | x :: xs, h => by
    rw [List.pairwise_cons] at h
    rw [List.filterMap_cons]
    cases hfx : f x with
    | none => exact pairwise_key_filterMap f ka kb hf xs h.2
    | some b =>
      rw [List.pairwise_cons]
      refine ⟨?_, pairwise_key_filterMap f ka kb hf xs h.2⟩
      intro y hy
      obtain ⟨a, ha, hfa⟩ := List.mem_filterMap.mp hy
      rw [hf x b hfx, hf a y hfa]
      exact h.1 a ha

/-- In a keyed filterMap of a pairwise-distinct-key table, the entries
carrying the key of row `r` are exactly the image of `r`. -/
theorem filter_key_filterMap {α β : Type} (f : α → Option β) (ka : α → ℤ)
    (kb : β → ℤ) (hf : ∀ a b, f a = some b → kb b = ka a) :
    ∀ (l : List α), l.Pairwise (fun a b => ka a ≠ ka b) →
    ∀ r ∈ l, (l.filterMap f).filter (fun b => kb b == ka r) = (f r).toList
  | [], _, r, hr => absurd hr (List.not_mem_nil r)
  | x :: xs, h, r, hr => by
    rw [List.pairwise_cons] at h
    have hnil : ∀ s : List α, (∀ a ∈ s, ka a ≠ ka r) →
        (s.filterMap f).filter (fun b => kb b == ka r) = [] := by
      intro s hs
      rw [List.filter_eq_nil_iff]
      intro b hb
      obtain ⟨a, ha, hfa⟩ := List.mem_filterMap.mp hb
      rw [hf a b hfa]
      simp [hs a ha]
    rcases List.mem_cons.mp hr with rfl | hr'
    · rw [List.filterMap_cons]
      cases hfx : f r with
      | none => exact hnil xs (fun a ha => (h.1 a ha).symm)
      | some b =>
        rw [List.filter_cons_of_pos (by simp [hf r b hfx]),
          hnil xs (fun a ha => (h.1 a ha).symm)]
        rfl
    · rw [List.filterMap_cons]
      cases hfx : f x with
      | none => exact filter_key_filterMap f ka kb hf xs h.2 r hr'
      | some b =>
        rw [List.filter_cons_of_neg
          (by simp [hf x b hfx]; exact h.1 r hr'),
          filter_key_filterMap f ka kb hf xs h.2 r hr']

/-- A guarded some equals some only when the payloads agree. -/
theorem ite_some_none_inj {α : Type} (c : Prop) [Decidable c] (a b : α)
    (h : (if c then some a else none) = some b) : a = b := by
  split at h
  · exact Option.some.inj h
  · exact Option.noConfusion h

/-- A loa candidate dictionary carries the id of its LOA row. -/
theorem mkLoaItem_id (now : ℤ) (db : DB) (r : LoaRow) (it : Item)
    (h : mkLoaItem now db r = some it) : it.id = r.id := by
  unfold mkLoaItem at h
  split at h <;> try exact Option.noConfusion h
  split at h <;> try exact Option.noConfusion h
  split at h <;> try exact Option.noConfusion h
  dsimp only at h
  have h2 := ite_some_none_inj _ _ _ h
  subst h2
  rfl

/-- A client_document candidate dictionary carries the id of its row. -/
theorem mkDocItem_id (now : ℤ) (db : DB) (r : DocumentRequestRow) (it : Item)
    (h : mkDocItem now db r = some it) : it.id = r.id := by
  unfold mkDocItem at h
  split at h <;> try exact Option.noConfusion h
  split at h <;> try exact Option.noConfusion h
  split at h <;> try exact Option.noConfusion h
  dsimp only at h
  have h2 := ite_some_none_inj _ _ _ h
  subst h2
  rfl

/-- A post_advice candidate dictionary carries the id of its row. -/
theorem mkPostItem_id (now : ℤ) (db : DB) (r : PostAdviceItemRow) (it : Item)
    (h : mkPostItem now db r = some it) : it.id = r.id := by
  unfold mkPostItem at h
  split at h <;> try exact Option.noConfusion h
  split at h <;> try exact Option.noConfusion h
  split at h <;> try exact Option.noConfusion h
  dsimp only at h
  have h2 := ite_some_none_inj _ _ _ h
  subst h2
  rfl

/-- The score write keeps the LOA id. -/
theorem scoreSetLoa_id (it : Item) (r : LoaRow) : (scoreSetLoa it r).id = r.id := rfl

/-- The score write keeps the DocumentRequest id. -/
theorem scoreSetDoc_id (it : Item) (r : DocumentRequestRow) :
    (scoreSetDoc it r).id = r.id := rfl

/-- The score write keeps the PostAdviceItem id. -/
theorem scoreSetPost_id (it : Item) (r : PostAdviceItemRow) :
    (scoreSetPost it r).id = r.id := rfl

/-- The metadata write keeps the LOA id. -/
theorem metaSetLoa_id (now : ℤ) (r : LoaRow) : (metaSetLoa now r).id = r.id := by
  simp only [metaSetLoa]
  split <;> rfl

/-- The metadata write keeps the DocumentRequest id. -/
theorem metaSetDoc_id (now : ℤ) (r : DocumentRequestRow) :
    (metaSetDoc now r).id = r.id := rfl

/-- The metadata write keeps the PostAdviceItem id. -/
theorem metaSetPost_id (now : ℤ) (r : PostAdviceItemRow) :
    (metaSetPost now r).id = r.id := rfl

/-- Phase-1 characterization for the loa agent: score writes accumulate on
the LOA table, chased items append to the queue, no error. -/
theorem process_identified_loa :
    ∀ (items : List Item) (db : DB) (q : List QEntry),
    process_identified .loa items db q =
      ({ db with loas := scoredLoas items db.loas },
        q ++ (items.filter loa_should_chase).map qEntryLoa, none)
  | [], db, q => by simp [process_identified, scoredLoas, applyUpdates]
  | it :: rest, db, q => by
    have step : process_identified .loa (it :: rest) db q =
        process_identified .loa rest
          ({ db with loas := scoreUpdLoa it db.loas })
          (if loa_should_chase it then q ++ [qEntryLoa it] else q) := rfl
    rw [step, process_identified_loa rest _ _]
    cases hb : loa_should_chase it <;>
      simp [scoredLoas, scoreUpdLoa, applyUpdates, List.filter_cons, hb,
        List.append_assoc]

/-- Phase-1 characterization for the client_document agent. -/
theorem process_identified_doc :
    ∀ (items : List Item) (db : DB) (q : List QEntry),
    process_identified .client_document items db q =
      ({ db with doc_requests := scoredDocs items db.doc_requests },
        q ++ (items.filter client_doc_should_chase).map qEntryDoc, none)
  | [], db, q => by simp [process_identified, scoredDocs, applyUpdates]
  | it :: rest, db, q => by
    have step : process_identified .client_document (it :: rest) db q =
        process_identified .client_document rest
          ({ db with doc_requests := scoreUpdDoc it db.doc_requests })
          (if client_doc_should_chase it then q ++ [qEntryDoc it] else q) := rfl
    rw [step, process_identified_doc rest _ _]
    cases hb : client_doc_should_chase it <;>
      simp [scoredDocs, scoreUpdDoc, applyUpdates, List.filter_cons, hb,
        List.append_assoc]

/-- Phase-1 characterization for the post_advice agent. -/
theorem process_identified_post :
    ∀ (items : List Item) (db : DB) (q : List QEntry),
    process_identified .post_advice items db q =
      ({ db with post_advice_items := scoredPosts items db.post_advice_items },
        q ++ (items.filter post_advice_should_chase).map qEntryPost, none)
  | [], db, q => by simp [process_identified, scoredPosts, applyUpdates]
  | it :: rest, db, q => by
    have step : process_identified .post_advice (it :: rest) db q =
        process_identified .post_advice rest
          ({ db with post_advice_items := scoreUpdPost it db.post_advice_items })
          (if post_advice_should_chase it then q ++ [qEntryPost it] else q) := rfl
    rw [step, process_identified_post rest _ _]
    cases hb : post_advice_should_chase it <;>
      simp [scoredPosts, scoreUpdPost, applyUpdates, List.filter_cons, hb,
        List.append_assoc]

/-- Phase-1 characterization for the workflow agent on no items: nothing
happens. -/
theorem process_identified_wf_nil (db : DB) (q : List QEntry) :
    process_identified .workflow_item [] db q = (db, q, none) := rfl

/-- Phase-1 characterization for the workflow agent on any identified item:
no session write is made for it and the AttributeError propagates at once. -/
theorem process_identified_wf_cons (it : Item) (rest : List Item) (db : DB)
    (q : List QEntry) :
    process_identified .workflow_item (it :: rest) db q =
      (db, q, some wfChaseError) := rfl

/-- client_document identification reads only the cases, clients and
doc_requests tables. -/
theorem client_doc_identify_congr (now : ℤ) (db1 db2 : DB)
    (hc : db1.cases = db2.cases) (hcl : db1.clients = db2.clients)
    (hd : db1.doc_requests = db2.doc_requests) :
    client_doc_identify_chases_needed now db1 =
      client_doc_identify_chases_needed now db2 := by
  have hf : mkDocItem now db1 = mkDocItem now db2 := by
    funext r
    unfold mkDocItem DB.findCase DB.findClient
    rw [hc, hcl]
  unfold client_doc_identify_chases_needed
  rw [hd, hf]

/-- post_advice identification reads only the cases, clients and
post_advice_items tables. -/
theorem post_advice_identify_congr (now : ℤ) (db1 db2 : DB)
    (hc : db1.cases = db2.cases) (hcl : db1.clients = db2.clients)
    (hp : db1.post_advice_items = db2.post_advice_items) :
    post_advice_identify_chases_needed now db1 =
      post_advice_identify_chases_needed now db2 := by
  have hf : mkPostItem now db1 = mkPostItem now db2 := by
    funext r
    unfold mkPostItem DB.findCase DB.findClient
    rw [hc, hcl]
  unfold post_advice_identify_chases_needed
  rw [hp, hf]

/-- workflow identification reads only the cases, clients, workflow_items
and providers tables. -/
theorem workflow_identify_congr (now : ℤ) (db1 db2 : DB)
    (hc : db1.cases = db2.cases) (hcl : db1.clients = db2.clients)
    (hw : db1.workflow_items = db2.workflow_items)
    (hp : db1.providers = db2.providers) :
    workflow_identify_chases_needed now db1 =
      workflow_identify_chases_needed now db2 := by
  unfold workflow_identify_chases_needed DB.findClient DB.findProvider
  rw [hc, hcl, hw, hp]

/-- Phase-3 characterization on the LOA table: each executed loa entry
applies the metadata write to its row. -/
theorem execute_chases_loas (now : ℤ) :
    ∀ (entries : List QEntry) (db : DB),
    (execute_chases now entries db).1.loas =
      applyUpdates (fun r => r.id)
        ((entries.filter (fun e => e.agent == AgentType.loa)).map
          (fun e => (e.item.id, fun r => metaSetLoa now r))) db.loas
  | [], _ => rfl
  | e :: rest, db => by
    obtain ⟨ag, it, p, s⟩ := e
    rcases hE : execute_chases now rest
        (update_chase_metadata now ag it.id
          (create_communication now it ag (agent_select_channel ag it) db))
      with ⟨db3, acts⟩
    have ih := execute_chases_loas now rest
      (update_chase_metadata now ag it.id
        (create_communication now it ag (agent_select_channel ag it) db))
    rw [hE] at ih
    have hcons : (execute_chases now (⟨ag, it, p, s⟩ :: rest) db).1 = db3 := by
      simp only [execute_chases, hE]
    rw [hcons, ih]
    cases ag <;>
      simp [update_chase_metadata, create_communication, List.filter_cons,
        applyUpdates, metaSetLoa]

/-- Phase-3 characterization on the DocumentRequest table. -/
theorem execute_chases_docs (now : ℤ) :
    ∀ (entries : List QEntry) (db : DB),
    (execute_chases now entries db).1.doc_requests =
      applyUpdates (fun r => r.id)
        ((entries.filter (fun e => e.agent == AgentType.client_document)).map
          (fun e => (e.item.id, fun r => metaSetDoc now r))) db.doc_requests
  | [], _ => rfl
  | e :: rest, db => by
    obtain ⟨ag, it, p, s⟩ := e
    rcases hE : execute_chases now rest
        (update_chase_metadata now ag it.id
          (create_communication now it ag (agent_select_channel ag it) db))
      with ⟨db3, acts⟩
    have ih := execute_chases_docs now rest
      (update_chase_metadata now ag it.id
        (create_communication now it ag (agent_select_channel ag it) db))
    rw [hE] at ih
    have hcons : (execute_chases now (⟨ag, it, p, s⟩ :: rest) db).1 = db3 := by
      simp only [execute_chases, hE]
    rw [hcons, ih]
    cases ag <;>
      simp [update_chase_metadata, create_communication, List.filter_cons,
        applyUpdates, metaSetDoc]

/-- Phase-3 characterization on the PostAdviceItem table. -/
theorem execute_chases_posts (now : ℤ) :
    ∀ (entries : List QEntry) (db : DB),
    (execute_chases now entries db).1.post_advice_items =
      applyUpdates (fun r => r.id)
        ((entries.filter (fun e => e.agent == AgentType.post_advice)).map
          (fun e => (e.item.id, fun r => metaSetPost now r))) db.post_advice_items
  | [], _ => rfl
  | e :: rest, db => by
    obtain ⟨ag, it, p, s⟩ := e
    rcases hE : execute_chases now rest
        (update_chase_metadata now ag it.id
          (create_communication now it ag (agent_select_channel ag it) db))
      with ⟨db3, acts⟩
    have ih := execute_chases_posts now rest
      (update_chase_metadata now ag it.id
        (create_communication now it ag (agent_select_channel ag it) db))
    rw [hE] at ih
    have hcons : (execute_chases now (⟨ag, it, p, s⟩ :: rest) db).1 = db3 := by
      simp only [execute_chases, hE]
    rw [hcons, ih]
    cases ag <;>
      simp [update_chase_metadata, create_communication, List.filter_cons,
        applyUpdates, metaSetPost]

/-- Phase 3 never touches the WorkflowItem table. -/
theorem execute_chases_workflow_items (now : ℤ) :
    ∀ (entries : List QEntry) (db : DB),
    (execute_chases now entries db).1.workflow_items = db.workflow_items
  | [], _ => rfl
  | e :: rest, db => by
    obtain ⟨ag, it, p, s⟩ := e
    rcases hE : execute_chases now rest
        (update_chase_metadata now ag it.id
          (create_communication now it ag (agent_select_channel ag it) db))
      with ⟨db3, acts⟩
    have ih := execute_chases_workflow_items now rest
      (update_chase_metadata now ag it.id
        (create_communication now it ag (agent_select_channel ag it) db))
    rw [hE] at ih
    have hcons : (execute_chases now (⟨ag, it, p, s⟩ :: rest) db).1 = db3 := by
      simp only [execute_chases, hE]
    rw [hcons, ih]
    cases ag <;> rfl

/-- The loa slice of phase 1, in closed form. -/
theorem run_agent_phase_loa (now : ℤ) (db : DB) :
    run_agent_phase now .loa db [] =
      (scoresDB1 now db, cycleQueueL now db, none) := by
  have h0 : run_agent_phase now .loa db [] =
      process_identified .loa (loa_identify_chases_needed now db) db [] := rfl
  rw [h0, process_identified_loa]
  simp [scoresDB1, cycleQueueL]

/-- The client_document slice of phase 1, in closed form. -/
theorem run_agent_phase_doc (now : ℤ) (db : DB) :
    run_agent_phase now .client_document (scoresDB1 now db) (cycleQueueL now db) =
      (scoresDB2 now db, cycleQueueL now db ++ cycleQueueD now db, none) := by
  have h0 : run_agent_phase now .client_document (scoresDB1 now db) (cycleQueueL now db) =
      process_identified .client_document
        (client_doc_identify_chases_needed now (scoresDB1 now db))
        (scoresDB1 now db) (cycleQueueL now db) := rfl
  rw [h0, client_doc_identify_congr now (scoresDB1 now db) db rfl rfl rfl,
    process_identified_doc]
  simp [scoresDB1, scoresDB2, cycleQueueD]

/-- The post_advice slice of phase 1, in closed form. -/
theorem run_agent_phase_post (now : ℤ) (db : DB) :
    run_agent_phase now .post_advice (scoresDB2 now db)
      (cycleQueueL now db ++ cycleQueueD now db) =
      (scoresDB now db, cycleQueue now db, none) := by
  have h0 : run_agent_phase now .post_advice (scoresDB2 now db)
      (cycleQueueL now db ++ cycleQueueD now db) =
      process_identified .post_advice
        (post_advice_identify_chases_needed now (scoresDB2 now db))
        (scoresDB2 now db) (cycleQueueL now db ++ cycleQueueD now db) := rfl
  rw [h0, post_advice_identify_congr now (scoresDB2 now db) db rfl rfl rfl,
    process_identified_post]
  simp [scoresDB1, scoresDB2, scoresDB, cycleQueue, cycleQueueP, List.append_assoc]

/-- The workflow slice of phase 1 identifies against the phase-3 state
exactly what it identifies against the original store. -/
theorem run_agent_phase_wf (now : ℤ) (db : DB) :
    run_agent_phase now .workflow_item (scoresDB now db) (cycleQueue now db) =
      process_identified .workflow_item (workflow_identify_chases_needed now db)
        (scoresDB now db) (cycleQueue now db) := by
  have h0 : run_agent_phase now .workflow_item (scoresDB now db) (cycleQueue now db) =
      process_identified .workflow_item
        (workflow_identify_chases_needed now (scoresDB now db))
        (scoresDB now db) (cycleQueue now db) := rfl
  rw [h0, workflow_identify_congr now (scoresDB now db) db rfl rfl rfl rfl]

/--
The autonomous cycle in closed form: phase 1 writes the scores of the three
functioning agents onto their tables; then, if the workflow agent identifies
nothing, the sorted queue is executed and a summary returned, and otherwise
the AttributeError of WorkflowAgent.should_chase aborts the cycle with the
score writes already committed.
-/
theorem run_autonomous_cycle_eq (now : ℤ) (db : DB) :
    run_autonomous_cycle now db =
      if workflow_identify_chases_needed now db = [] then
        ((execute_chases now (cycleSorted now db) (scoresDB now db)).1,
         Except.ok { timestamp := now,
                     total_items_identified := (cycleSorted now db).length,
                     actions_taken :=
                       (execute_chases now (cycleSorted now db) (scoresDB now db)).2 })
      else (scoresDB now db, Except.error wfChaseError) := by
  rcases hW : workflow_identify_chases_needed now db with _ | ⟨w, ws⟩
  · have e4 := run_agent_phase_wf now db
    rw [hW, process_identified_wf_nil] at e4
    simp only [run_autonomous_cycle, run_agent_phase_loa, run_agent_phase_doc,
      run_agent_phase_post, e4, cycleSorted]
    simp
  · have e4 := run_agent_phase_wf now db
    rw [hW, process_identified_wf_cons] at e4
    simp only [run_autonomous_cycle, run_agent_phase_loa, run_agent_phase_doc,
      run_agent_phase_post, e4]
    simp

/-- A fold of key-preserving row rewrites preserves the key. -/
theorem foldl_key_preserving {α : Type} (k : α → ℤ) :
    ∀ (gs : List (α → α)), (∀ g ∈ gs, ∀ x, k (g x) = k x) →
    ∀ r, k (gs.foldl (fun x g => g x) r) = k r
  | [], _, _ => rfl
  | g :: gs, h, r => by
    rw [List.foldl_cons,
      foldl_key_preserving k gs (fun g2 hg2 x => h g2 (List.mem_cons_of_mem g hg2) x)
        (g r),
      h g (List.mem_cons_self g gs) r]

/-- After one pass of keyed updates over a distinct-key table, the row with
key `k r` is `r` rewritten by exactly its own updates. -/
theorem applyUpdates_once_mem {α : Type} (k : α → ℤ)
    (us1 : List (ℤ × (α → α)))
    (h1 : ∀ u ∈ us1, ∀ x, k (u.2 x) = k x)
    (l : List α) (hdist : l.Pairwise (fun a b => k a ≠ k b))
    (r : α) (hr : r ∈ l) (a : α)
    (hv1 : ((us1.filter (fun u => u.1 == k r)).map Prod.snd).foldl
      (fun x g => g x) r = a) :
    a ∈ applyUpdates k us1 l := by
  rw [applyUpdates_map k us1 h1 l hdist, ← hv1]
  exact List.mem_map_of_mem _ hr

/-- After two passes of keyed updates over a distinct-key table, the row
with key `k r` is `r` rewritten by its updates from the first pass and then
its updates from the second. -/
theorem applyUpdates_twice_mem {α : Type} (k : α → ℤ)
    (us1 us2 : List (ℤ × (α → α)))
    (h1 : ∀ u ∈ us1, ∀ x, k (u.2 x) = k x)
    (h2 : ∀ u ∈ us2, ∀ x, k (u.2 x) = k x)
    (l : List α) (hdist : l.Pairwise (fun a b => k a ≠ k b))
    (r : α) (hr : r ∈ l) (a b : α)
    (hv1 : ((us1.filter (fun u => u.1 == k r)).map Prod.snd).foldl
      (fun x g => g x) r = a)
    (hv2 : ((us2.filter (fun u => u.1 == k r)).map Prod.snd).foldl
      (fun x g => g x) a = b) :
    b ∈ applyUpdates k us2 (applyUpdates k us1 l) := by
  have hkg1 : ∀ x : α,
      k (((us1.filter (fun u => u.1 == k x)).map Prod.snd).foldl
        (fun y g => g y) x) = k x := by
    intro x
    refine foldl_key_preserving k _ ?_ x
    intro g hg y
    obtain ⟨u, hu, rfl⟩ := List.mem_map.mp hg
    exact h1 u (List.mem_filter.mp hu).1 y
  rw [applyUpdates_map k us1 h1 l hdist]
  have hdist1 : (l.map (fun r0 => ((us1.filter (fun u => u.1 == k r0)).map
      Prod.snd).foldl (fun x g => g x) r0)).Pairwise (fun x y => k x ≠ k y) := by
    rw [List.pairwise_map]
    refine hdist.imp ?_
    intro x y hxy
    rw [hkg1 x, hkg1 y]
    exact hxy
  rw [applyUpdates_map k us2 h2 _ hdist1, List.map_map]
  have hval : (((fun r1 => ((us2.filter (fun u => u.1 == k r1)).map Prod.snd).foldl
        (fun x g => g x) r1) ∘ (fun r0 => ((us1.filter (fun u => u.1 == k r0)).map
        Prod.snd).foldl (fun x g => g x) r0)) r) = b := by
    simp only [Function.comp]
    rw [hkg1 r, hv1, hv2]
  rw [← hval]
  exact List.mem_map_of_mem _ hr

/-- Among the identified loa items, exactly one carries the id of the row
it came from. -/
theorem identify_filter_id_loa (now : ℤ) (db : DB)
    (hdist : db.loas.Pairwise (fun a b => a.id ≠ b.id))
    (r : LoaRow) (hr : r ∈ db.loas) (it : Item)
    (hit : mkLoaItem now db r = some it) :
    (loa_identify_chases_needed now db).filter (fun it2 => it2.id == r.id) = [it] := by
  have h := filter_key_filterMap (mkLoaItem now db) (fun a => a.id) (fun b => b.id)
    (fun a b hb => mkLoaItem_id now db a b hb) db.loas hdist r hr
  rw [hit] at h
  exact h

/-- Among the identified client_document items, exactly one carries the id
of the row it came from. -/
theorem identify_filter_id_doc (now : ℤ) (db : DB)
    (hdist : db.doc_requests.Pairwise (fun a b => a.id ≠ b.id))
    (r : DocumentRequestRow) (hr : r ∈ db.doc_requests) (it : Item)
    (hit : mkDocItem now db r = some it) :
    (client_doc_identify_chases_needed now db).filter
      (fun it2 => it2.id == r.id) = [it] := by
  have h := filter_key_filterMap (mkDocItem now db) (fun a => a.id) (fun b => b.id)
    (fun a b hb => mkDocItem_id now db a b hb) db.doc_requests hdist r hr
  rw [hit] at h
  exact h

/-- Among the identified post_advice items, exactly one carries the id of
the row it came from. -/
theorem identify_filter_id_post (now : ℤ) (db : DB)
    (hdist : db.post_advice_items.Pairwise (fun a b => a.id ≠ b.id))
    (r : PostAdviceItemRow) (hr : r ∈ db.post_advice_items) (it : Item)
    (hit : mkPostItem now db r = some it) :
    (post_advice_identify_chases_needed now db).filter
      (fun it2 => it2.id == r.id) = [it] := by
  have h := filter_key_filterMap (mkPostItem now db) (fun a => a.id) (fun b => b.id)
    (fun a b hb => mkPostItem_id now db a b hb) db.post_advice_items hdist r hr
  rw [hit] at h
  exact h

/-- Of the phase-1 loa score updates, exactly the one of row `r`'s item
carries `r`'s key. -/
theorem score_updates_filter_loa (now : ℤ) (db : DB)
    (hdist : db.loas.Pairwise (fun a b => a.id ≠ b.id))
    (r : LoaRow) (hr : r ∈ db.loas) (it : Item)
    (hit : mkLoaItem now db r = some it) :
    ((loa_identify_chases_needed now db).map
        (fun it2 => ((it2.id : ℤ), fun r2 => scoreSetLoa it2 r2))).filter
      (fun u => u.1 == r.id) = [((it.id : ℤ), fun r2 => scoreSetLoa it r2)] := by
  rw [List.filter_map]
  rw [show ((fun (u : ℤ × (LoaRow → LoaRow)) => u.1 == r.id) ∘
      (fun it2 => ((it2.id : ℤ), fun r2 => scoreSetLoa it2 r2))) =
      (fun it2 : Item => it2.id == r.id) from rfl]
  rw [identify_filter_id_loa now db hdist r hr it hit]
  rfl

/-- Of the phase-1 client_document score updates, exactly the one of row
`r`'s item carries `r`'s key. -/
theorem score_updates_filter_doc (now : ℤ) (db : DB)
    (hdist : db.doc_requests.Pairwise (fun a b => a.id ≠ b.id))
    (r : DocumentRequestRow) (hr : r ∈ db.doc_requests) (it : Item)
    (hit : mkDocItem now db r = some it) :
    ((client_doc_identify_chases_needed now db).map
        (fun it2 => ((it2.id : ℤ), fun r2 => scoreSetDoc it2 r2))).filter
      (fun u => u.1 == r.id) = [((it.id : ℤ), fun r2 => scoreSetDoc it r2)] := by
  rw [List.filter_map]
  rw [show ((fun (u : ℤ × (DocumentRequestRow → DocumentRequestRow)) => u.1 == r.id) ∘
      (fun it2 => ((it2.id : ℤ), fun r2 => scoreSetDoc it2 r2))) =
      (fun it2 : Item => it2.id == r.id) from rfl]
  rw [identify_filter_id_doc now db hdist r hr it hit]
  rfl

/-- Of the phase-1 post_advice score updates, exactly the one of row `r`'s
item carries `r`'s key. -/
theorem score_updates_filter_post (now : ℤ) (db : DB)
    (hdist : db.post_advice_items.Pairwise (fun a b => a.id ≠ b.id))
    (r : PostAdviceItemRow) (hr : r ∈ db.post_advice_items) (it : Item)
    (hit : mkPostItem now db r = some it) :
    ((post_advice_identify_chases_needed now db).map
        (fun it2 => ((it2.id : ℤ), fun r2 => scoreSetPost it2 r2))).filter
      (fun u => u.1 == r.id) = [((it.id : ℤ), fun r2 => scoreSetPost it r2)] := by
  rw [List.filter_map]
  rw [show ((fun (u : ℤ × (PostAdviceItemRow → PostAdviceItemRow)) => u.1 == r.id) ∘
      (fun it2 => ((it2.id : ℤ), fun r2 => scoreSetPost it2 r2))) =
      (fun it2 : Item => it2.id == r.id) from rfl]
  rw [identify_filter_id_post now db hdist r hr it hit]
  rfl

/-- Of the chase queue, the loa entries carrying row `r`'s id are exactly
`r`'s own item, if chased. -/
theorem cycleQueue_filter_loa (now : ℤ) (db : DB)
    (hdist : db.loas.Pairwise (fun a b => a.id ≠ b.id))
    (r : LoaRow) (hr : r ∈ db.loas) (it : Item)
    (hit : mkLoaItem now db r = some it) :
    ((cycleQueue now db).filter (fun e => e.agent == AgentType.loa)).filter
      (fun e => e.item.id == r.id) =
      if loa_should_chase it then [qEntryLoa it] else [] := by
  unfold cycleQueue cycleQueueL cycleQueueD cycleQueueP
  simp only [List.filter_append]
  have hD : (((client_doc_identify_chases_needed now db).filter
      client_doc_should_chase).map qEntryDoc).filter
      (fun e => e.agent == AgentType.loa) = [] := by
    rw [List.filter_eq_nil_iff]
    intro e he
    obtain ⟨x, _, rfl⟩ := List.mem_map.mp he
    simp [qEntryDoc]
  have hP : (((post_advice_identify_chases_needed now db).filter
      post_advice_should_chase).map qEntryPost).filter
      (fun e => e.agent == AgentType.loa) = [] := by
    rw [List.filter_eq_nil_iff]
    intro e he
    obtain ⟨x, _, rfl⟩ := List.mem_map.mp he
    simp [qEntryPost]
  have hL : (((loa_identify_chases_needed now db).filter
      loa_should_chase).map qEntryLoa).filter
      (fun e => e.agent == AgentType.loa) =
      ((loa_identify_chases_needed now db).filter loa_should_chase).map qEntryLoa := by
    rw [List.filter_eq_self]
    intro e he
    obtain ⟨x, _, rfl⟩ := List.mem_map.mp he
    simp [qEntryLoa]
  rw [hD, hP, hL]
  simp only [List.filter_nil, List.append_nil, List.nil_append]
  rw [List.filter_map]
  rw [show ((fun (e : QEntry) => e.item.id == r.id) ∘ qEntryLoa) =
      (fun it2 : Item => it2.id == r.id) from rfl]
  rw [List.filter_filter]
  rw [List.filter_congr (fun x _ => Bool.and_comm (x.id == r.id) (loa_should_chase x))]
  rw [← List.filter_filter]
  rw [identify_filter_id_loa now db hdist r hr it hit]
  rw [List.filter_singleton]
  cases hsc : loa_should_chase it <;> simp [hsc]

/-- Of the chase queue, the client_document entries carrying row `r`'s id
are exactly `r`'s own item, if chased. -/
theorem cycleQueue_filter_doc (now : ℤ) (db : DB)
    (hdist : db.doc_requests.Pairwise (fun a b => a.id ≠ b.id))
    (r : DocumentRequestRow) (hr : r ∈ db.doc_requests) (it : Item)
    (hit : mkDocItem now db r = some it) :
    ((cycleQueue now db).filter (fun e => e.agent == AgentType.client_document)).filter
      (fun e => e.item.id == r.id) =
      if client_doc_should_chase it then [qEntryDoc it] else [] := by
  unfold cycleQueue cycleQueueL cycleQueueD cycleQueueP
  simp only [List.filter_append]
  have hL : (((loa_identify_chases_needed now db).filter
      loa_should_chase).map qEntryLoa).filter
      (fun e => e.agent == AgentType.client_document) = [] := by
    rw [List.filter_eq_nil_iff]
    intro e he
    obtain ⟨x, _, rfl⟩ := List.mem_map.mp he
    simp [qEntryLoa]
  have hP : (((post_advice_identify_chases_needed now db).filter
      post_advice_should_chase).map qEntryPost).filter
      (fun e => e.agent == AgentType.client_document) = [] := by
    rw [List.filter_eq_nil_iff]
    intro e he
    obtain ⟨x, _, rfl⟩ := List.mem_map.mp he
    simp [qEntryPost]
  have hD : (((client_doc_identify_chases_needed now db).filter
      client_doc_should_chase).map qEntryDoc).filter
      (fun e => e.agent == AgentType.client_document) =
      ((client_doc_identify_chases_needed now db).filter
        client_doc_should_chase).map qEntryDoc := by
    rw [List.filter_eq_self]
    intro e he
    obtain ⟨x, _, rfl⟩ := List.mem_map.mp he
    simp [qEntryDoc]
  rw [hL, hP, hD]
  simp only [List.filter_nil, List.append_nil, List.nil_append]
  rw [List.filter_map]
  rw [show ((fun (e : QEntry) => e.item.id == r.id) ∘ qEntryDoc) =
      (fun it2 : Item => it2.id == r.id) from rfl]
  rw [List.filter_filter]
  rw [List.filter_congr
    (fun x _ => Bool.and_comm (x.id == r.id) (client_doc_should_chase x))]
  rw [← List.filter_filter]
  rw [identify_filter_id_doc now db hdist r hr it hit]
  rw [List.filter_singleton]
  cases hsc : client_doc_should_chase it <;> simp [hsc]

/-- Of the chase queue, the post_advice entries carrying row `r`'s id are
exactly `r`'s own item, if chased. -/
theorem cycleQueue_filter_post (now : ℤ) (db : DB)
    (hdist : db.post_advice_items.Pairwise (fun a b => a.id ≠ b.id))
    (r : PostAdviceItemRow) (hr : r ∈ db.post_advice_items) (it : Item)
    (hit : mkPostItem now db r = some it) :
    ((cycleQueue now db).filter (fun e => e.agent == AgentType.post_advice)).filter
      (fun e => e.item.id == r.id) =
      if post_advice_should_chase it then [qEntryPost it] else [] := by
  unfold cycleQueue cycleQueueL cycleQueueD cycleQueueP
  simp only [List.filter_append]
  have hL : (((loa_identify_chases_needed now db).filter
      loa_should_chase).map qEntryLoa).filter
      (fun e => e.agent == AgentType.post_advice) = [] := by
    rw [List.filter_eq_nil_iff]
    intro e he
    obtain ⟨x, _, rfl⟩ := List.mem_map.mp he
    simp [qEntryLoa]
  have hD : (((client_doc_identify_chases_needed now db).filter
      client_doc_should_chase).map qEntryDoc).filter
      (fun e => e.agent == AgentType.post_advice) = [] := by
    rw [List.filter_eq_nil_iff]
    intro e he
    obtain ⟨x, _, rfl⟩ := List.mem_map.mp he
    simp [qEntryDoc]
  have hPk : (((post_advice_identify_chases_needed now db).filter
      post_advice_should_chase).map qEntryPost).filter
      (fun e => e.agent == AgentType.post_advice) =
      ((post_advice_identify_chases_needed now db).filter
        post_advice_should_chase).map qEntryPost := by
    rw [List.filter_eq_self]
    intro e he
    obtain ⟨x, _, rfl⟩ := List.mem_map.mp he
    simp [qEntryPost]
  rw [hL, hD, hPk]
  simp only [List.filter_nil, List.append_nil, List.nil_append]
  rw [List.filter_map]
  rw [show ((fun (e : QEntry) => e.item.id == r.id) ∘ qEntryPost) =
      (fun it2 : Item => it2.id == r.id) from rfl]
  rw [List.filter_filter]
  rw [List.filter_congr
    (fun x _ => Bool.and_comm (x.id == r.id) (post_advice_should_chase x))]
  rw [← List.filter_filter]
  rw [identify_filter_id_post now db hdist r hr it hit]
  rw [List.filter_singleton]
  cases hsc : post_advice_should_chase it <;> simp [hsc]

/-- Of the phase-3 loa metadata updates, those carrying row `r`'s key are
exactly one write for `r`'s item, if chased. -/
theorem chase_updates_filter_loa (now : ℤ) (db : DB)
    (hdist : db.loas.Pairwise (fun a b => a.id ≠ b.id))
    (r : LoaRow) (hr : r ∈ db.loas) (it : Item)
    (hit : mkLoaItem now db r = some it) :
    (((cycleSorted now db).filter (fun e => e.agent == AgentType.loa)).map
        (fun e => ((e.item.id : ℤ), fun r2 => metaSetLoa now r2))).filter
      (fun u => u.1 == r.id) =
      if loa_should_chase it then [((it.id : ℤ), fun r2 => metaSetLoa now r2)]
      else [] := by
  rw [List.filter_map]
  rw [show ((fun (u : ℤ × (LoaRow → LoaRow)) => u.1 == r.id) ∘
      (fun (e : QEntry) => ((e.item.id : ℤ), fun r2 => metaSetLoa now r2))) =
      (fun e : QEntry => e.item.id == r.id) from rfl]
  have hperm : (((cycleSorted now db).filter
      (fun e => e.agent == AgentType.loa)).filter
        (fun e => e.item.id == r.id)).Perm
      (((cycleQueue now db).filter (fun e => e.agent == AgentType.loa)).filter
        (fun e => e.item.id == r.id)) :=
    List.Perm.filter _ (List.Perm.filter _
      (List.mergeSort_perm (cycleQueue now db) chase_le))
  rw [cycleQueue_filter_loa now db hdist r hr it hit] at hperm
  cases hsc : loa_should_chase it
  · simp only [hsc, Bool.false_eq_true, if_false] at hperm
    rw [List.perm_nil] at hperm
    simp [hperm, hsc]
  · simp only [hsc, if_true] at hperm
    rw [List.perm_singleton] at hperm
    simp [hperm, hsc, qEntryLoa]

/-- Of the phase-3 client_document metadata updates, those carrying row
`r`'s key are exactly one write for `r`'s item, if chased. -/
theorem chase_updates_filter_doc (now : ℤ) (db : DB)
    (hdist : db.doc_requests.Pairwise (fun a b => a.id ≠ b.id))
    (r : DocumentRequestRow) (hr : r ∈ db.doc_requests) (it : Item)
    (hit : mkDocItem now db r = some it) :
    (((cycleSorted now db).filter
        (fun e => e.agent == AgentType.client_document)).map
        (fun e => ((e.item.id : ℤ), fun r2 => metaSetDoc now r2))).filter
      (fun u => u.1 == r.id) =
      if client_doc_should_chase it then
        [((it.id : ℤ), fun r2 => metaSetDoc now r2)]
      else [] := by
  rw [List.filter_map]
  rw [show ((fun (u : ℤ × (DocumentRequestRow → DocumentRequestRow)) => u.1 == r.id) ∘
      (fun (e : QEntry) => ((e.item.id : ℤ), fun r2 => metaSetDoc now r2))) =
      (fun e : QEntry => e.item.id == r.id) from rfl]
  have hperm : (((cycleSorted now db).filter
      (fun e => e.agent == AgentType.client_document)).filter
        (fun e => e.item.id == r.id)).Perm
      (((cycleQueue now db).filter
        (fun e => e.agent == AgentType.client_document)).filter
        (fun e => e.item.id == r.id)) :=
    List.Perm.filter _ (List.Perm.filter _
      (List.mergeSort_perm (cycleQueue now db) chase_le))
  rw [cycleQueue_filter_doc now db hdist r hr it hit] at hperm
  cases hsc : client_doc_should_chase it
  · simp only [hsc, Bool.false_eq_true, if_false] at hperm
    rw [List.perm_nil] at hperm
    simp [hperm, hsc]
  · simp only [hsc, if_true] at hperm
    rw [List.perm_singleton] at hperm
    simp [hperm, hsc, qEntryDoc]

/-- Of the phase-3 post_advice metadata updates, those carrying row `r`'s
key are exactly one write for `r`'s item, if chased. -/
theorem chase_updates_filter_post (now : ℤ) (db : DB)
    (hdist : db.post_advice_items.Pairwise (fun a b => a.id ≠ b.id))
    (r : PostAdviceItemRow) (hr : r ∈ db.post_advice_items) (it : Item)
    (hit : mkPostItem now db r = some it) :
    (((cycleSorted now db).filter
        (fun e => e.agent == AgentType.post_advice)).map
        (fun e => ((e.item.id : ℤ), fun r2 => metaSetPost now r2))).filter
      (fun u => u.1 == r.id) =
      if post_advice_should_chase it then
        [((it.id : ℤ), fun r2 => metaSetPost now r2)]
      else [] := by
  rw [List.filter_map]
  rw [show ((fun (u : ℤ × (PostAdviceItemRow → PostAdviceItemRow)) => u.1 == r.id) ∘
      (fun (e : QEntry) => ((e.item.id : ℤ), fun r2 => metaSetPost now r2))) =
      (fun e : QEntry => e.item.id == r.id) from rfl]
  have hperm : (((cycleSorted now db).filter
      (fun e => e.agent == AgentType.post_advice)).filter
        (fun e => e.item.id == r.id)).Perm
      (((cycleQueue now db).filter
        (fun e => e.agent == AgentType.post_advice)).filter
        (fun e => e.item.id == r.id)) :=
    List.Perm.filter _ (List.Perm.filter _
      (List.mergeSort_perm (cycleQueue now db) chase_le))
  rw [cycleQueue_filter_post now db hdist r hr it hit] at hperm
  cases hsc : post_advice_should_chase it
  · simp only [hsc, Bool.false_eq_true, if_false] at hperm
    rw [List.perm_nil] at hperm
    simp [hperm, hsc]
  · simp only [hsc, if_true] at hperm
    rw [List.perm_singleton] at hperm
    simp [hperm, hsc, qEntryPost]

/-- Every identified loa item has its scores persisted onto its row by
phase 1, and its chase metadata applied by phase 3 exactly when it was
queued. -/
theorem loa_row_persist (now : ℤ) (db : DB)
    (hdist : db.loas.Pairwise (fun a b => a.id ≠ b.id)) :
    ∀ it ∈ loa_identify_chases_needed now db, ∃ r ∈ db.loas, r.id = it.id ∧
      scoreSetLoa it r ∈ (scoresDB now db).loas ∧
      (if loa_should_chase it then metaSetLoa now (scoreSetLoa it r)
        else scoreSetLoa it r) ∈
        (execute_chases now (cycleSorted now db) (scoresDB now db)).1.loas := by
  intro it hmem
  obtain ⟨r, hr, hit⟩ := List.mem_filterMap.mp hmem
  refine ⟨r, hr, (mkLoaItem_id now db r it hit).symm, ?_, ?_⟩
  · show scoreSetLoa it r ∈ applyUpdates (fun r2 => r2.id)
      ((loa_identify_chases_needed now db).map
        (fun it2 => ((it2.id : ℤ), fun r2 => scoreSetLoa it2 r2))) db.loas
    refine applyUpdates_once_mem (fun r2 => r2.id) _ ?_ db.loas hdist r hr _ ?_
    · intro u hu x
      obtain ⟨it2, _, rfl⟩ := List.mem_map.mp hu
      rfl
    · show (((((loa_identify_chases_needed now db).map
          (fun it2 => ((it2.id : ℤ), fun r2 => scoreSetLoa it2 r2))).filter
            (fun u => u.1 == r.id)).map Prod.snd).foldl (fun x g => g x) r) =
          scoreSetLoa it r
      rw [score_updates_filter_loa now db hdist r hr it hit]
      rfl
  · rw [execute_chases_loas]
    show (if loa_should_chase it then metaSetLoa now (scoreSetLoa it r)
        else scoreSetLoa it r) ∈ applyUpdates (fun r2 => r2.id)
        (((cycleSorted now db).filter (fun e => e.agent == AgentType.loa)).map
          (fun e => ((e.item.id : ℤ), fun r2 => metaSetLoa now r2)))
        (applyUpdates (fun r2 => r2.id)
          ((loa_identify_chases_needed now db).map
            (fun it2 => ((it2.id : ℤ), fun r2 => scoreSetLoa it2 r2))) db.loas)
    refine applyUpdates_twice_mem (fun r2 => r2.id) _ _ ?_ ?_ db.loas hdist r hr
      (scoreSetLoa it r) _ ?_ ?_
    · intro u hu x
      obtain ⟨it2, _, rfl⟩ := List.mem_map.mp hu
      rfl
    · intro u hu x
      obtain ⟨e, _, rfl⟩ := List.mem_map.mp hu
      exact metaSetLoa_id now x
    · show (((((loa_identify_chases_needed now db).map
          (fun it2 => ((it2.id : ℤ), fun r2 => scoreSetLoa it2 r2))).filter
            (fun u => u.1 == r.id)).map Prod.snd).foldl (fun x g => g x) r) =
          scoreSetLoa it r
      rw [score_updates_filter_loa now db hdist r hr it hit]
      rfl
    · show ((((((cycleSorted now db).filter
          (fun e => e.agent == AgentType.loa)).map
          (fun e => ((e.item.id : ℤ), fun r2 => metaSetLoa now r2))).filter
            (fun u => u.1 == r.id)).map Prod.snd).foldl (fun x g => g x)
          (scoreSetLoa it r)) =
          (if loa_should_chase it then metaSetLoa now (scoreSetLoa it r)
            else scoreSetLoa it r)
      rw [chase_updates_filter_loa now db hdist r hr it hit]
      cases hsc : loa_should_chase it <;> simp [hsc]

/-- Every identified client_document item has its scores persisted onto its
row by phase 1, and its chase metadata applied by phase 3 exactly when it
was queued. -/
theorem doc_row_persist (now : ℤ) (db : DB)
    (hdist : db.doc_requests.Pairwise (fun a b => a.id ≠ b.id)) :
    ∀ it ∈ client_doc_identify_chases_needed now db, ∃ r ∈ db.doc_requests,
      r.id = it.id ∧
      scoreSetDoc it r ∈ (scoresDB now db).doc_requests ∧
      (if client_doc_should_chase it then metaSetDoc now (scoreSetDoc it r)
        else scoreSetDoc it r) ∈
        (execute_chases now (cycleSorted now db) (scoresDB now db)).1.doc_requests := by
  intro it hmem
  obtain ⟨r, hr, hit⟩ := List.mem_filterMap.mp hmem
  refine ⟨r, hr, (mkDocItem_id now db r it hit).symm, ?_, ?_⟩
  · show scoreSetDoc it r ∈ applyUpdates (fun r2 => r2.id)
      ((client_doc_identify_chases_needed now db).map
        (fun it2 => ((it2.id : ℤ), fun r2 => scoreSetDoc it2 r2))) db.doc_requests
    refine applyUpdates_once_mem (fun r2 => r2.id) _ ?_ db.doc_requests hdist r hr _ ?_
    · intro u hu x
      obtain ⟨it2, _, rfl⟩ := List.mem_map.mp hu
      rfl
    · show (((((client_doc_identify_chases_needed now db).map
          (fun it2 => ((it2.id : ℤ), fun r2 => scoreSetDoc it2 r2))).filter
            (fun u => u.1 == r.id)).map Prod.snd).foldl (fun x g => g x) r) =
          scoreSetDoc it r
      rw [score_updates_filter_doc now db hdist r hr it hit]
      rfl
  · rw [execute_chases_docs]
    show (if client_doc_should_chase it then metaSetDoc now (scoreSetDoc it r)
        else scoreSetDoc it r) ∈ applyUpdates (fun r2 => r2.id)
        (((cycleSorted now db).filter
          (fun e => e.agent == AgentType.client_document)).map
          (fun e => ((e.item.id : ℤ), fun r2 => metaSetDoc now r2)))
        (applyUpdates (fun r2 => r2.id)
          ((client_doc_identify_chases_needed now db).map
            (fun it2 => ((it2.id : ℤ), fun r2 => scoreSetDoc it2 r2))) db.doc_requests)
    refine applyUpdates_twice_mem (fun r2 => r2.id) _ _ ?_ ?_ db.doc_requests hdist r hr
      (scoreSetDoc it r) _ ?_ ?_
    · intro u hu x
      obtain ⟨it2, _, rfl⟩ := List.mem_map.mp hu
      rfl
    · intro u hu x
      obtain ⟨e, _, rfl⟩ := List.mem_map.mp hu
      exact metaSetDoc_id now x
    · show (((((client_doc_identify_chases_needed now db).map
          (fun it2 => ((it2.id : ℤ), fun r2 => scoreSetDoc it2 r2))).filter
            (fun u => u.1 == r.id)).map Prod.snd).foldl (fun x g => g x) r) =
          scoreSetDoc it r
      rw [score_updates_filter_doc now db hdist r hr it hit]
      rfl
    · show ((((((cycleSorted now db).filter
          (fun e => e.agent == AgentType.client_document)).map
          (fun e => ((e.item.id : ℤ), fun r2 => metaSetDoc now r2))).filter
            (fun u => u.1 == r.id)).map Prod.snd).foldl (fun x g => g x)
          (scoreSetDoc it r)) =
          (if client_doc_should_chase it then metaSetDoc now (scoreSetDoc it r)
            else scoreSetDoc it r)
      rw [chase_updates_filter_doc now db hdist r hr it hit]
      cases hsc : client_doc_should_chase it <;> simp [hsc]

/-- Every identified post_advice item has its scores persisted onto its row
by phase 1, and its chase metadata applied by phase 3 exactly when it was
queued. -/
theorem post_row_persist (now : ℤ) (db : DB)
    (hdist : db.post_advice_items.Pairwise (fun a b => a.id ≠ b.id)) :
    ∀ it ∈ post_advice_identify_chases_needed now db, ∃ r ∈ db.post_advice_items,
      r.id = it.id ∧
      scoreSetPost it r ∈ (scoresDB now db).post_advice_items ∧
      (if post_advice_should_chase it then metaSetPost now (scoreSetPost it r)
        else scoreSetPost it r) ∈
        (execute_chases now (cycleSorted now db)
          (scoresDB now db)).1.post_advice_items := by
  intro it hmem
  obtain ⟨r, hr, hit⟩ := List.mem_filterMap.mp hmem
  refine ⟨r, hr, (mkPostItem_id now db r it hit).symm, ?_, ?_⟩
  · show scoreSetPost it r ∈ applyUpdates (fun r2 => r2.id)
      ((post_advice_identify_chases_needed now db).map
        (fun it2 => ((it2.id : ℤ), fun r2 => scoreSetPost it2 r2))) db.post_advice_items
    refine applyUpdates_once_mem (fun r2 => r2.id) _ ?_ db.post_advice_items hdist r hr _ ?_
    · intro u hu x
      obtain ⟨it2, _, rfl⟩ := List.mem_map.mp hu
      rfl
    · show (((((post_advice_identify_chases_needed now db).map
          (fun it2 => ((it2.id : ℤ), fun r2 => scoreSetPost it2 r2))).filter
            (fun u => u.1 == r.id)).map Prod.snd).foldl (fun x g => g x) r) =
          scoreSetPost it r
      rw [score_updates_filter_post now db hdist r hr it hit]
      rfl
  · rw [execute_chases_posts]
    show (if post_advice_should_chase it then metaSetPost now (scoreSetPost it r)
        else scoreSetPost it r) ∈ applyUpdates (fun r2 => r2.id)
        (((cycleSorted now db).filter
          (fun e => e.agent == AgentType.post_advice)).map
          (fun e => ((e.item.id : ℤ), fun r2 => metaSetPost now r2)))
        (applyUpdates (fun r2 => r2.id)
          ((post_advice_identify_chases_needed now db).map
            (fun it2 => ((it2.id : ℤ), fun r2 => scoreSetPost it2 r2)))
          db.post_advice_items)
    refine applyUpdates_twice_mem (fun r2 => r2.id) _ _ ?_ ?_ db.post_advice_items
      hdist r hr (scoreSetPost it r) _ ?_ ?_
    · intro u hu x
      obtain ⟨it2, _, rfl⟩ := List.mem_map.mp hu
      rfl
    · intro u hu x
      obtain ⟨e, _, rfl⟩ := List.mem_map.mp hu
      exact metaSetPost_id now x
    · show (((((post_advice_identify_chases_needed now db).map
          (fun it2 => ((it2.id : ℤ), fun r2 => scoreSetPost it2 r2))).filter
            (fun u => u.1 == r.id)).map Prod.snd).foldl (fun x g => g x) r) =
          scoreSetPost it r
      rw [score_updates_filter_post now db hdist r hr it hit]
      rfl
    · show ((((((cycleSorted now db).filter
          (fun e => e.agent == AgentType.post_advice)).map
          (fun e => ((e.item.id : ℤ), fun r2 => metaSetPost now r2))).filter
            (fun u => u.1 == r.id)).map Prod.snd).foldl (fun x g => g x)
          (scoreSetPost it r)) =
          (if post_advice_should_chase it then metaSetPost now (scoreSetPost it r)
            else scoreSetPost it r)
      rw [chase_updates_filter_post now db hdist r hr it hit]
      cases hsc : post_advice_should_chase it <;> simp [hsc]

/--
C2, counterexample: on a store where the workflow agent identifies a chase
candidate (an in-progress annual review whose pack sign-off is 3 days old),
run_autonomous_cycle leaves the session byte-for-byte unchanged and aborts
with the AttributeError of WorkflowAgent.should_chase — so the identified
workflow item has neither its computed priority (urgent, per the
pack_signoff rule) nor its stuck score persisted onto its row, contrary to
the claim that scores are persisted for the items of each of the four
agents.
-/
theorem C2_counterexample :
    workflow_identify_chases_needed 100 c2wfdb ≠ [] ∧
    (run_autonomous_cycle 100 c2wfdb).1 = c2wfdb ∧
    (run_autonomous_cycle 100 c2wfdb).2 = Except.error wfChaseError ∧
    (∀ it ∈ workflow_identify_chases_needed 100 c2wfdb,
      (workflow_calculate_priority it).val = "urgent") ∧
    (∀ w ∈ (run_autonomous_cycle 100 c2wfdb).1.workflow_items,
      w.priority = "medium" ∧ w.stuck_score = 0) := by
  refine ⟨by decide, by decide, by rfl, by decide, by decide⟩

/--
C2 (amended): in AgentOrchestrator.run_autonomous_cycle over a store whose
LOA, DocumentRequest and PostAdviceItem tables have distinct ids, the
computed priority and stuck_score are persisted back onto the underlying
row for every item identified by the loa, client_document and post_advice
agents — but never for the workflow agent, whose table the cycle leaves
untouched; whenever the workflow agent identifies at least one item the
cycle aborts with an AttributeError (the queued chases left unexecuted, the
score writes kept), and otherwise every queued item is executed: its row
receives the chase_count increment and last_chased_at stamp, with an LOA in
pending status transitioned to sent (inside `metaSetLoa`).
-/
theorem C2_run_autonomous_cycle_persistence (now : ℤ) (db : DB)
    (hL : db.loas.Pairwise (fun a b => a.id ≠ b.id))
    (hD : db.doc_requests.Pairwise (fun a b => a.id ≠ b.id))
    (hP : db.post_advice_items.Pairwise (fun a b => a.id ≠ b.id)) :
    ((run_autonomous_cycle now db).1.workflow_items = db.workflow_items) ∧
    (workflow_identify_chases_needed now db ≠ [] →
      (run_autonomous_cycle now db).2 = Except.error wfChaseError) ∧
    (workflow_identify_chases_needed now db = [] →
      ∃ s, (run_autonomous_cycle now db).2 = Except.ok s) ∧
    (∀ it ∈ loa_identify_chases_needed now db, ∃ r ∈ db.loas, r.id = it.id ∧
      (workflow_identify_chases_needed now db ≠ [] →
        scoreSetLoa it r ∈ (run_autonomous_cycle now db).1.loas) ∧
      (workflow_identify_chases_needed now db = [] →
        (if loa_should_chase it then metaSetLoa now (scoreSetLoa it r)
          else scoreSetLoa it r) ∈ (run_autonomous_cycle now db).1.loas)) ∧
    (∀ it ∈ client_doc_identify_chases_needed now db, ∃ r ∈ db.doc_requests,
      r.id = it.id ∧
      (workflow_identify_chases_needed now db ≠ [] →
        scoreSetDoc it r ∈ (run_autonomous_cycle now db).1.doc_requests) ∧
      (workflow_identify_chases_needed now db = [] →
        (if client_doc_should_chase it then metaSetDoc now (scoreSetDoc it r)
          else scoreSetDoc it r) ∈ (run_autonomous_cycle now db).1.doc_requests)) ∧
    (∀ it ∈ post_advice_identify_chases_needed now db, ∃ r ∈ db.post_advice_items,
      r.id = it.id ∧
      (workflow_identify_chases_needed now db ≠ [] →
        scoreSetPost it r ∈ (run_autonomous_cycle now db).1.post_advice_items) ∧
      (workflow_identify_chases_needed now db = [] →
        (if post_advice_should_chase it then metaSetPost now (scoreSetPost it r)
          else scoreSetPost it r) ∈
          (run_autonomous_cycle now db).1.post_advice_items)) := by
  have hcyc := run_autonomous_cycle_eq now db
  by_cases hW : workflow_identify_chases_needed now db = []
  · rw [if_pos hW] at hcyc
    refine ⟨?_, ?_, ?_, ?_, ?_, ?_⟩
    · rw [hcyc]
      exact (execute_chases_workflow_items now (cycleSorted now db)
        (scoresDB now db)).trans rfl
    · intro hne
      exact absurd hW hne
    · intro _
      exact ⟨_, by rw [hcyc]⟩
    · intro it hmem
      obtain ⟨r, hr, hid, hs1, hs2⟩ := loa_row_persist now db hL it hmem
      refine ⟨r, hr, hid, ?_, ?_⟩
      · intro hne
        exact absurd hW hne
      · intro _
        rw [hcyc]
        exact hs2
    · intro it hmem
      obtain ⟨r, hr, hid, hs1, hs2⟩ := doc_row_persist now db hD it hmem
      refine ⟨r, hr, hid, ?_, ?_⟩
      · intro hne
        exact absurd hW hne
      · intro _
        rw [hcyc]
        exact hs2
    · intro it hmem
      obtain ⟨r, hr, hid, hs1, hs2⟩ := post_row_persist now db hP it hmem
      refine ⟨r, hr, hid, ?_, ?_⟩
      · intro hne
        exact absurd hW hne
      · intro _
        rw [hcyc]
        exact hs2
  · rw [if_neg hW] at hcyc
    refine ⟨?_, ?_, ?_, ?_, ?_, ?_⟩
    · rw [hcyc]
      rfl
    · intro _
      rw [hcyc]
    · intro he
      exact absurd he hW
    · intro it hmem
      obtain ⟨r, hr, hid, hs1, _⟩ := loa_row_persist now db hL it hmem
      refine ⟨r, hr, hid, ?_, ?_⟩
      · intro _
        rw [hcyc]
        exact hs1
      · intro he
        exact absurd he hW
    · intro it hmem
      obtain ⟨r, hr, hid, hs1, _⟩ := doc_row_persist now db hD it hmem
      refine ⟨r, hr, hid, ?_, ?_⟩
      · intro _
        rw [hcyc]
        exact hs1
      · intro he
        exact absurd he hW
    · intro it hmem
      obtain ⟨r, hr, hid, hs1, _⟩ := post_row_persist now db hP it hmem
      refine ⟨r, hr, hid, ?_, ?_⟩
      · intro _
        rw [hcyc]
        exact hs1
      · intro he
        exact absurd he hW

/-- C2, witness: the amended cycle theorem applied to the concrete store
`c2wfdb`, whose three chased tables trivially have distinct ids. -/
theorem C2_run_autonomous_cycle_persistence_witness :
    (run_autonomous_cycle 100 c2wfdb).1.workflow_items = c2wfdb.workflow_items :=
  (C2_run_autonomous_cycle_persistence 100 c2wfdb (by decide) (by decide)
    (by decide)).1

end Chaser
